/-
Verification of the PortfolioMcp portfolio ledger engine.

Shallow embedding of:
  - models/domain.py          (Holding, Transaction, Portfolio, TransactionType)
  - services/validators.py    (PortfolioValidator)
  - services/portfolio_service.py (PortfolioService)
  - database/repository.py    (repository semantics over an in-memory store)
  - tools/portfolio_tools.py  (tool-boundary error classification)

Python floats are modelled as rationals (ℚ): every numeric value exercised by
the claims (whole-share quantities, prices, cash balances) is exactly
representable, and the comparisons/arithmetic the code performs agree with
rational arithmetic on such values.  datetime values are modelled as naive
broken-down timestamps (no timezone offsets; the service itself only produces
naive datetimes via datetime.utcnow).  uuid generation and datetime.utcnow are
modelled as explicit parameters.
-/
import Mathlib

/- Rational arithmetic is `@[irreducible]` in the library; re-allow kernel
reduction so that closed statements about concrete ledger runs can be settled
by `decide`/`rfl`.  This only changes unfolding hints, not definitions. -/
set_option allowUnsafeReducibility true

attribute [local semireducible] Rat.mul Rat.add Rat.sub Rat.neg Rat.div

/-! ### Error taxonomy

`ValidationError` (services/validators.py), `InsufficientFundsError`
(services/portfolio_service.py), `ItemNotFoundException` / `DuplicateItemException` /
`RepositoryException` (database/repository.py), Python `ValueError`
(raised by Portfolio.add_cash / withdraw_cash in models/domain.py) and
pydantic's own validation failure on model construction (a distinct class
from the validators' ValidationError).  Messages keep the static part of the
source's message text. -/

inductive PError where
  | validationError (msg : String)
  | insufficientFunds (msg : String)
  | itemNotFound (msg : String)
  | duplicateItem (msg : String)
  | repositoryError (msg : String)
  | valueError (msg : String)
  | pydanticError (msg : String)
deriving DecidableEq, Repr

instance instDecEqExcept {ε α : Type} [DecidableEq ε] [DecidableEq α] :
    DecidableEq (Except ε α) := fun a b =>
  match a, b with
  | .error x, .error y =>
    if h : x = y then .isTrue (by rw [h])
    else .isFalse (fun hh => h (Except.error.inj hh))
  | .ok x, .ok y =>
    if h : x = y then .isTrue (by rw [h])
    else .isFalse (fun hh => h (Except.ok.inj hh))
  | .error _, .ok _ => .isFalse (fun hh => Except.noConfusion hh)
  | .ok _, .error _ => .isFalse (fun hh => Except.noConfusion hh)

/-! ### datetime model (naive) -/

structure DateTime where
  year : Nat
  month : Nat
  day : Nat
  hour : Nat
  minute : Nat
  second : Nat
  microsecond : Nat
deriving DecidableEq, Repr

/-- Gregorian leap-year rule (as in Python's `calendar.isleap` /
`datetime` validation). -/
def isLeap (y : Nat) : Bool :=
  y % 4 = 0 && (y % 100 ≠ 0 || y % 400 = 0)

def daysInMonth (y m : Nat) : Nat :=
  if m = 2 then (if isLeap y then 29 else 28)
  else if m = 4 || m = 6 || m = 9 || m = 11 then 30
  else 31

/-- The field ranges `datetime` enforces on construction. -/
def DateTime.Valid (d : DateTime) : Prop :=
  1 ≤ d.year ∧ d.year ≤ 9999 ∧ 1 ≤ d.month ∧ d.month ≤ 12 ∧
  1 ≤ d.day ∧ d.day ≤ daysInMonth d.year d.month ∧
  d.hour ≤ 23 ∧ d.minute ≤ 59 ∧ d.second ≤ 59 ∧ d.microsecond ≤ 999999

instance (d : DateTime) : Decidable d.Valid := by
  unfold DateTime.Valid; infer_instance

/-- Order key: on valid datetimes this agrees with Python's lexicographic
(year, month, day, hour, minute, second, microsecond) datetime order, since
every multiplier strictly bounds the following field. -/
def DateTime.key (d : DateTime) : Nat :=
  (((((d.year * 13 + d.month) * 32 + d.day) * 24 + d.hour) * 60 + d.minute) * 60
      + d.second) * 1000000 + d.microsecond

/-- Python `a <= b` on datetimes, via the key. -/
def DateTime.le (a b : DateTime) : Bool := a.key ≤ b.key

/-! ### ISO-8601 serialization (`datetime.isoformat` / `datetime.fromisoformat`) -/

def digitChar (n : Nat) : Char := Char.ofNat (48 + n)

def charVal (c : Char) : Option Nat :=
  if c.isDigit then some (c.toNat - 48) else none

/-- `%02d` zero padding (faithful for n ≤ 99, the only values serialized). -/
def pad2 (n : Nat) : List Char := [digitChar (n / 10), digitChar (n % 10)]

/-- `%04d` zero padding (faithful for n ≤ 9999). -/
def pad4 (n : Nat) : List Char :=
  [digitChar (n / 1000), digitChar (n / 100 % 10), digitChar (n / 10 % 10),
   digitChar (n % 10)]

/-- `%06d` zero padding (faithful for n ≤ 999999). -/
def pad6 (n : Nat) : List Char :=
  [digitChar (n / 100000), digitChar (n / 10000 % 10), digitChar (n / 1000 % 10),
   digitChar (n / 100 % 10), digitChar (n / 10 % 10), digitChar (n % 10)]

def parse2 (a b : Char) : Option Nat :=
  match charVal a, charVal b with
  | some x, some y => some (x * 10 + y)
  | _, _ => none

def parse4 (a b c d : Char) : Option Nat :=
  match charVal a, charVal b, charVal c, charVal d with
  | some x, some y, some z, some w => some (x * 1000 + y * 100 + z * 10 + w)
  | _, _, _, _ => none

def parse6 (a b c d e f : Char) : Option Nat :=
  match charVal a, charVal b, charVal c, charVal d, charVal e, charVal f with
  | some u, some v, some w, some x, some y, some z =>
      some (u * 100000 + v * 10000 + w * 1000 + x * 100 + y * 10 + z)
  | _, _, _, _, _, _ => none

/-- `datetime(...)` constructor: validates ranges. -/
def mkValidDateTime (y mo da h mi s us : Nat) : Option DateTime :=
  if 1 ≤ y ∧ y ≤ 9999 ∧ 1 ≤ mo ∧ mo ≤ 12 ∧ 1 ≤ da ∧ da ≤ daysInMonth y mo ∧
      h ≤ 23 ∧ mi ≤ 59 ∧ s ≤ 59 ∧ us ≤ 999999 then
    some ⟨y, mo, da, h, mi, s, us⟩
  else none

/-- `datetime.isoformat()`: `YYYY-MM-DDTHH:MM:SS`, with `.ffffff` appended
exactly when microsecond ≠ 0. -/
def DateTime.isoChars (d : DateTime) : List Char :=
  pad4 d.year ++ '-' :: pad2 d.month ++ '-' :: pad2 d.day ++
    'T' :: pad2 d.hour ++ ':' :: pad2 d.minute ++ ':' :: pad2 d.second ++
    (if d.microsecond = 0 then [] else '.' :: pad6 d.microsecond)

def DateTime.isoformat (d : DateTime) : String := ⟨d.isoChars⟩

/-- `datetime.fromisoformat` on naive date / datetime strings
(`YYYY-MM-DD`, `YYYY-MM-DDTHH:MM:SS`, `YYYY-MM-DDTHH:MM:SS.ffffff`). -/
def fromisoChars : List Char → Option DateTime
  | [y1, y2, y3, y4, c1, m1, m2, c2, d1, d2] =>
    if c1 = '-' ∧ c2 = '-' then
      match parse4 y1 y2 y3 y4, parse2 m1 m2, parse2 d1 d2 with
      | some y, some mo, some da => mkValidDateTime y mo da 0 0 0 0
      | _, _, _ => none
    else none
  | [y1, y2, y3, y4, c1, m1, m2, c2, d1, d2, ct, h1, h2, c3, i1, i2, c4, s1, s2] =>
    if c1 = '-' ∧ c2 = '-' ∧ ct = 'T' ∧ c3 = ':' ∧ c4 = ':' then
      match parse4 y1 y2 y3 y4, parse2 m1 m2, parse2 d1 d2, parse2 h1 h2,
          parse2 i1 i2, parse2 s1 s2 with
      | some y, some mo, some da, some h, some mi, some s =>
          mkValidDateTime y mo da h mi s 0
      | _, _, _, _, _, _ => none
    else none
  | [y1, y2, y3, y4, c1, m1, m2, c2, d1, d2, ct, h1, h2, c3, i1, i2, c4, s1, s2,
      cd, u1, u2, u3, u4, u5, u6] =>
    if c1 = '-' ∧ c2 = '-' ∧ ct = 'T' ∧ c3 = ':' ∧ c4 = ':' ∧ cd = '.' then
      match parse4 y1 y2 y3 y4, parse2 m1 m2, parse2 d1 d2, parse2 h1 h2,
          parse2 i1 i2, parse2 s1 s2, parse6 u1 u2 u3 u4 u5 u6 with
      | some y, some mo, some da, some h, some mi, some s, some us =>
          mkValidDateTime y mo da h mi s us
      | _, _, _, _, _, _, _ => none
    else none
  | _ => none

def fromisoformat (s : String) : Option DateTime := fromisoChars s.data

/-! #### round-trip lemmas for the ISO encoding -/

theorem charVal_digitChar : ∀ n, n < 10 → charVal (digitChar n) = some n := by
  decide

theorem parse2_pad2 {n : Nat} (h : n ≤ 99) :
    parse2 (digitChar (n / 10)) (digitChar (n % 10)) = some n := by
  have h1 : n / 10 < 10 := by omega
  have h2 : n % 10 < 10 := by omega
  rw [parse2, charVal_digitChar _ h1, charVal_digitChar _ h2]
  simp; omega

theorem parse4_pad4 {n : Nat} (h : n ≤ 9999) :
    parse4 (digitChar (n / 1000)) (digitChar (n / 100 % 10))
      (digitChar (n / 10 % 10)) (digitChar (n % 10)) = some n := by
  have h1 : n / 1000 < 10 := by omega
  rw [parse4, charVal_digitChar _ h1, charVal_digitChar _ (Nat.mod_lt _ (by omega)),
    charVal_digitChar _ (Nat.mod_lt _ (by omega)),
    charVal_digitChar _ (Nat.mod_lt _ (by omega))]
  simp; omega

theorem parse6_pad6 {n : Nat} (h : n ≤ 999999) :
    parse6 (digitChar (n / 100000)) (digitChar (n / 10000 % 10))
      (digitChar (n / 1000 % 10)) (digitChar (n / 100 % 10))
      (digitChar (n / 10 % 10)) (digitChar (n % 10)) = some n := by
  have h1 : n / 100000 < 10 := by omega
  rw [parse6, charVal_digitChar _ h1, charVal_digitChar _ (Nat.mod_lt _ (by omega)),
    charVal_digitChar _ (Nat.mod_lt _ (by omega)),
    charVal_digitChar _ (Nat.mod_lt _ (by omega)),
    charVal_digitChar _ (Nat.mod_lt _ (by omega)),
    charVal_digitChar _ (Nat.mod_lt _ (by omega))]
  simp; omega

theorem daysInMonth_le_31 (y m : Nat) : daysInMonth y m ≤ 31 := by
  rw [daysInMonth]
  split
  · split <;> omega
  · split <;> omega

theorem mkValidDateTime_of_valid {d : DateTime} (h : d.Valid) :
    mkValidDateTime d.year d.month d.day d.hour d.minute d.second d.microsecond
      = some d := by
  obtain ⟨h1, h2, h3, h4, h5, h6, h7, h8, h9, h10⟩ := h
  rw [mkValidDateTime, if_pos ⟨h1, h2, h3, h4, h5, h6, h7, h8, h9, h10⟩]

/-- `fromisoformat (isoformat d) = some d` for every valid naive datetime. -/
theorem fromisoformat_isoformat {d : DateTime} (h : d.Valid) :
    fromisoformat d.isoformat = some d := by
  obtain ⟨h1, h2, h3, h4, h5, h6, h7, h8, h9, h10⟩ := h
  rw [fromisoformat, DateTime.isoformat]
  show fromisoChars d.isoChars = some d
  rw [DateTime.isoChars, pad4, pad2, pad2, pad2, pad2, pad2]
  by_cases hus : d.microsecond = 0
  · rw [if_pos hus]
    show fromisoChars [_, _, _, _, '-', _, _, '-', _, _, 'T', _, _, ':', _, _, ':', _, _]
      = some d
    rw [fromisoChars]
    rw [if_pos ⟨rfl, rfl, rfl, rfl, rfl⟩]
    rw [parse4_pad4 h2, parse2_pad2 (by omega),
      parse2_pad2 (by have := daysInMonth_le_31 d.year d.month; omega),
      parse2_pad2 (by omega), parse2_pad2 (by omega), parse2_pad2 (by omega)]
    have hmk := mkValidDateTime_of_valid
      (d := d) ⟨h1, h2, h3, h4, h5, h6, h7, h8, h9, h10⟩
    rw [hus] at hmk
    exact hmk
  · rw [if_neg hus, pad6]
    show fromisoChars [_, _, _, _, '-', _, _, '-', _, _, 'T', _, _, ':', _, _, ':', _, _,
      '.', _, _, _, _, _, _] = some d
    rw [fromisoChars]
    rw [if_pos ⟨rfl, rfl, rfl, rfl, rfl, rfl⟩]
    rw [parse4_pad4 h2, parse2_pad2 (by omega),
      parse2_pad2 (by have := daysInMonth_le_31 d.year d.month; omega),
      parse2_pad2 (by omega), parse2_pad2 (by omega), parse2_pad2 (by omega),
      parse6_pad6 h10]
    exact mkValidDateTime_of_valid ⟨h1, h2, h3, h4, h5, h6, h7, h8, h9, h10⟩

/-! ### Python string primitives

`str.strip` and `str.upper`, embedded structurally over the character list
(the service only ever uppercases ASCII tickers and type names). -/

def isPySpace (c : Char) : Bool :=
  c = ' ' || c = '\t' || c = '\n' || c = '\x0b' || c = '\x0c' || c = '\r'

/-- Python `str.strip()`: drop whitespace from both ends. -/
def pyStrip (s : String) : String :=
  ⟨(((s.data.dropWhile isPySpace).reverse.dropWhile isPySpace).reverse : List Char)⟩

/-- Python `str.upper()` (per-character upper-casing). -/
def pyUpper (s : String) : String := ⟨s.data.map Char.toUpper⟩

/-! ### models/domain.py: TransactionType -/

inductive TransactionType where
  | buy | sell | dividend | split | transferIn | transferOut
deriving DecidableEq, Repr

/-- The str-enum's `.value`. -/
def TransactionType.value : TransactionType → String
  | .buy => "buy"
  | .sell => "sell"
  | .dividend => "dividend"
  | .split => "split"
  | .transferIn => "transfer_in"
  | .transferOut => "transfer_out"

/-- `TransactionType(s)`: lookup by value, `ValueError` (none) if absent. -/
def TransactionType.ofValue (s : String) : Option TransactionType :=
  if s = "buy" then some .buy
  else if s = "sell" then some .sell
  else if s = "dividend" then some .dividend
  else if s = "split" then some .split
  else if s = "transfer_in" then some .transferIn
  else if s = "transfer_out" then some .transferOut
  else none

theorem TransactionType.ofValue_value (t : TransactionType) :
    TransactionType.ofValue t.value = some t := by
  cases t <;> rfl

/-! ### models/domain.py: Holding -/

structure Holding where
  id : String
  portfolio_id : String
  ticker : String
  quantity : ℚ
  purchase_price : ℚ
  purchase_date : DateTime
  notes : Option String
  created_at : DateTime
  updated_at : DateTime
deriving DecidableEq, Repr

/-- pydantic construction of a `Holding`: field constraints
(`ticker` min_length 1 / max_length 10, `quantity` gt 0,
`purchase_price` gt 0) then the `ticker_uppercase` field validator. -/
def Holding.pydantic (id portfolio_id ticker : String) (quantity purchase_price : ℚ)
    (purchase_date : DateTime) (notes : Option String)
    (created_at updated_at : DateTime) : Except PError Holding :=
  if ticker.length < 1 then
    .error (.pydanticError "ticker: string should have at least 1 character")
  else if 10 < ticker.length then
    .error (.pydanticError "ticker: string should have at most 10 characters")
  else if quantity ≤ 0 then
    .error (.pydanticError "quantity: input should be greater than 0")
  else if purchase_price ≤ 0 then
    .error (.pydanticError "purchase price: input should be greater than 0")
  else
    .ok ⟨id, portfolio_id, pyUpper ticker, quantity, purchase_price, purchase_date,
      notes, created_at, updated_at⟩

/-- The invariants every pydantic-constructed `Holding` instance satisfies,
plus in-range datetime fields. -/
def Holding.PValid (h : Holding) : Prop :=
  1 ≤ h.ticker.length ∧ h.ticker.length ≤ 10 ∧ pyUpper h.ticker = h.ticker ∧
  0 < h.quantity ∧ 0 < h.purchase_price ∧
  h.purchase_date.Valid ∧ h.created_at.Valid ∧ h.updated_at.Valid

instance (h : Holding) : Decidable h.PValid := by
  unfold Holding.PValid; infer_instance

/-- The `to_dict` image: datetimes as ISO strings. -/
structure HoldingDict where
  id : String
  portfolio_id : String
  ticker : String
  quantity : ℚ
  purchase_price : ℚ
  purchase_date : String
  notes : Option String
  created_at : String
  updated_at : String
deriving DecidableEq, Repr

def Holding.to_dict (h : Holding) : HoldingDict :=
  ⟨h.id, h.portfolio_id, h.ticker, h.quantity, h.purchase_price,
    h.purchase_date.isoformat, h.notes, h.created_at.isoformat,
    h.updated_at.isoformat⟩

/-- `Holding.from_dict`: `datetime.fromisoformat` on the three date keys
(`ValueError` on a malformed string), then pydantic construction. -/
def Holding.from_dict (d : HoldingDict) : Except PError Holding :=
  match fromisoformat d.purchase_date, fromisoformat d.created_at,
      fromisoformat d.updated_at with
  | some pd, some ca, some ua =>
      Holding.pydantic d.id d.portfolio_id d.ticker d.quantity d.purchase_price
        pd d.notes ca ua
  | _, _, _ => .error (.valueError "Invalid isoformat string")

theorem holding_from_dict_to_dict {h : Holding} (hv : h.PValid) :
    Holding.from_dict h.to_dict = .ok h := by
  obtain ⟨h1, h2, h3, h4, h5, h6, h7, h8⟩ := hv
  rw [Holding.to_dict, Holding.from_dict]
  simp only [fromisoformat_isoformat h6, fromisoformat_isoformat h7,
    fromisoformat_isoformat h8]
  rw [Holding.pydantic, if_neg (by omega), if_neg (by omega),
    if_neg (by exact not_le.mpr h4), if_neg (by exact not_le.mpr h5), h3]

/-! ### models/domain.py: Transaction -/

structure Transaction where
  id : String
  portfolio_id : String
  type : TransactionType
  ticker : Option String
  quantity : Option ℚ
  price : ℚ
  total : ℚ
  date : DateTime
  notes : Option String
  created_at : DateTime
deriving DecidableEq, Repr

/-- pydantic construction of a `Transaction`: `ticker` optional with
min_length 1 / max_length 10, `quantity` optional gt 0, `price` ge 0,
then the `ticker_uppercase` validator (uppercase if provided). -/
def Transaction.pydantic (id portfolio_id : String) (type : TransactionType)
    (ticker : Option String) (quantity : Option ℚ) (price total : ℚ)
    (date : DateTime) (notes : Option String) (created_at : DateTime) :
    Except PError Transaction :=
  if (ticker.elim false fun t => t.length < 1) then
    .error (.pydanticError "ticker: string should have at least 1 character")
  else if (ticker.elim false fun t => 10 < t.length) then
    .error (.pydanticError "ticker: string should have at most 10 characters")
  else if (quantity.elim false fun q => q ≤ 0) then
    .error (.pydanticError "quantity: input should be greater than 0")
  else if price < 0 then
    .error (.pydanticError "price: input should be greater than or equal to 0")
  else
    .ok ⟨id, portfolio_id, type, ticker.map pyUpper, quantity, price,
      total, date, notes, created_at⟩

def Transaction.PValid (t : Transaction) : Prop :=
  (∀ tk ∈ t.ticker, 1 ≤ tk.length ∧ tk.length ≤ 10 ∧ pyUpper tk = tk) ∧
  (∀ q ∈ t.quantity, 0 < q) ∧ 0 ≤ t.price ∧ t.date.Valid ∧ t.created_at.Valid

instance (t : Transaction) : Decidable t.PValid := by
  unfold Transaction.PValid; infer_instance

structure TransactionDict where
  id : String
  portfolio_id : String
  type : String
  ticker : Option String
  quantity : Option ℚ
  price : ℚ
  total : ℚ
  date : String
  notes : Option String
  created_at : String
deriving DecidableEq, Repr

/-- `to_dict`: datetimes to ISO strings, enum to its `.value`. -/
def Transaction.to_dict (t : Transaction) : TransactionDict :=
  ⟨t.id, t.portfolio_id, t.type.value, t.ticker, t.quantity, t.price, t.total,
    t.date.isoformat, t.notes, t.created_at.isoformat⟩

/-- `from_dict`: parse the dates, `TransactionType(data['type'])`
(`ValueError` if unknown), then pydantic construction. -/
def Transaction.from_dict (d : TransactionDict) : Except PError Transaction :=
  match fromisoformat d.date, fromisoformat d.created_at,
      TransactionType.ofValue d.type with
  | some dt, some ca, some ty =>
      Transaction.pydantic d.id d.portfolio_id ty d.ticker d.quantity d.price
        d.total dt d.notes ca
  | _, _, _ => .error (.valueError "Invalid transaction dict")

theorem transaction_from_dict_to_dict {t : Transaction} (hv : t.PValid) :
    Transaction.from_dict t.to_dict = .ok t := by
  obtain ⟨h1, h2, h3, h4, h5⟩ := hv
  rw [Transaction.to_dict, Transaction.from_dict]
  simp only [fromisoformat_isoformat h4, fromisoformat_isoformat h5,
    TransactionType.ofValue_value]
  rw [Transaction.pydantic]
  rw [if_neg, if_neg, if_neg, if_neg (not_lt.mpr h3)]
  · have hmap : t.ticker.map pyUpper = t.ticker := by
      cases htk : t.ticker with
      | none => rfl
      | some tk => simp [(h1 tk (by rw [htk]; rfl)).2.2]
    rw [hmap]
  · cases htq : t.quantity with
    | none => simp [Option.elim]
    | some q =>
      have := h2 q (by rw [htq]; rfl)
      simp [Option.elim]; linarith
  · cases htk : t.ticker with
    | none => simp [Option.elim]
    | some tk =>
      have := (h1 tk (by rw [htk]; rfl)).2.1
      simp [Option.elim]; omega
  · cases htk : t.ticker with
    | none => simp [Option.elim]
    | some tk =>
      have := (h1 tk (by rw [htk]; rfl)).1
      simp [Option.elim]; omega

/-! ### models/domain.py: Portfolio -/

structure Portfolio where
  id : String
  cash_balance : ℚ
  last_updated : DateTime
  created_at : DateTime
deriving DecidableEq, Repr

/-- pydantic construction of a `Portfolio`: `cash_balance` ge 0. -/
def Portfolio.pydantic (id : String) (cash_balance : ℚ)
    (last_updated created_at : DateTime) : Except PError Portfolio :=
  if cash_balance < 0 then
    .error (.pydanticError "cash balance: input should be greater than or equal to 0")
  else .ok ⟨id, cash_balance, last_updated, created_at⟩

def Portfolio.PValid (p : Portfolio) : Prop :=
  0 ≤ p.cash_balance ∧ p.last_updated.Valid ∧ p.created_at.Valid

instance (p : Portfolio) : Decidable p.PValid := by
  unfold Portfolio.PValid; infer_instance

structure PortfolioDict where
  id : String
  cash_balance : ℚ
  last_updated : String
  created_at : String
deriving DecidableEq, Repr

def Portfolio.to_dict (p : Portfolio) : PortfolioDict :=
  ⟨p.id, p.cash_balance, p.last_updated.isoformat, p.created_at.isoformat⟩

def Portfolio.from_dict (d : PortfolioDict) : Except PError Portfolio :=
  match fromisoformat d.last_updated, fromisoformat d.created_at with
  | some lu, some ca => Portfolio.pydantic d.id d.cash_balance lu ca
  | _, _ => .error (.valueError "Invalid isoformat string")

theorem portfolio_from_dict_to_dict {p : Portfolio} (hv : p.PValid) :
    Portfolio.from_dict p.to_dict = .ok p := by
  obtain ⟨h1, h2, h3⟩ := hv
  rw [Portfolio.to_dict, Portfolio.from_dict]
  simp only [fromisoformat_isoformat h2, fromisoformat_isoformat h3]
  rw [Portfolio.pydantic, if_neg (not_lt.mpr h1)]

/-! ### models/domain.py: cash mutation methods -/

/-- `Portfolio.add_cash`: `ValueError` when amount ≤ 0, else increases the
balance and refreshes `last_updated`. -/
def Portfolio.add_cash (p : Portfolio) (amount : ℚ) (now : DateTime) :
    Except PError Portfolio :=
  if amount ≤ 0 then .error (.valueError "Amount must be positive")
  else .ok { p with cash_balance := p.cash_balance + amount, last_updated := now }

/-- `Portfolio.withdraw_cash`: `ValueError` when amount ≤ 0 or amount exceeds
the balance, else decreases the balance and refreshes `last_updated`. -/
def Portfolio.withdraw_cash (p : Portfolio) (amount : ℚ) (now : DateTime) :
    Except PError Portfolio :=
  if amount ≤ 0 then .error (.valueError "Amount must be positive")
  else if amount > p.cash_balance then
    .error (.valueError "Insufficient cash balance")
  else .ok { p with cash_balance := p.cash_balance - amount, last_updated := now }

/-! ### services/validators.py -/

/-- The regex character class `[A-Z]` (code points 65..90). -/
def isUpperLetter (c : Char) : Bool := 65 ≤ c.toNat && c.toNat ≤ 90

/-- The regex `[A-Z]{1,10}(\.[A-Z]{1,3})?` anchored at both ends.
Since `.` is not an upper-case letter, the anchored regex matches exactly
when the maximal leading letter block has length 1..10 and the remainder is
empty or a dot followed by 1..3 letters. -/
def tickerPattern (l : List Char) : Bool :=
  let pre := l.takeWhile isUpperLetter
  let rest := l.dropWhile isUpperLetter
  decide (1 ≤ pre.length) && decide (pre.length ≤ 10) &&
    (rest.isEmpty ||
      (rest.head? == some '.' && decide (1 ≤ rest.tail.length) &&
        decide (rest.tail.length ≤ 3) && rest.tail.all isUpperLetter))

/-- `PortfolioValidator.validate_ticker`: reject empty, strip + uppercase,
then match the ticker regex. -/
def validate_ticker (ticker : String) : Except PError String :=
  if ticker = "" then .error (.validationError "Ticker cannot be empty")
  else
    let t := pyUpper (pyStrip ticker)
    if tickerPattern t.data then .ok t
    else .error (.validationError "Invalid ticker format")

/-- Python `int()` on a rational: truncation toward zero. -/
def pyInt (q : ℚ) : Int := q.num.tdiv q.den

/-- `PortfolioValidator.validate_quantity`: numeric, nonnegative, nonzero
unless allow_zero, and a whole number (`quantity != int(quantity)` rejected). -/
def validate_quantity (quantity : ℚ) (allow_zero : Bool := false) :
    Except PError ℚ :=
  if quantity < 0 then .error (.validationError "Quantity cannot be negative")
  else if ¬allow_zero ∧ quantity = 0 then
    .error (.validationError "Quantity must be greater than zero")
  else if quantity ≠ ((pyInt quantity : Int) : ℚ) then
    .error (.validationError "Quantity must be a whole number")
  else .ok quantity

/-- `PortfolioValidator.validate_price`: numeric, nonnegative, nonzero unless
allow_zero. -/
def validate_price (price : ℚ) (allow_zero : Bool := false) : Except PError ℚ :=
  if price < 0 then .error (.validationError "Price cannot be negative")
  else if ¬allow_zero ∧ price = 0 then
    .error (.validationError "Price must be greater than zero")
  else .ok price

/-- `PortfolioValidator.validate_date`: `None` defaults to `utcnow`; otherwise
ISO parse (naive strings; a parse failure is a `ValidationError`). -/
def validate_date (date_str : Option String) (now : DateTime) :
    Except PError DateTime :=
  match date_str with
  | none => .ok now
  | some s =>
    match fromisoformat s with
    | some d => .ok d
    | none => .error (.validationError "Invalid date format")

/-- `PortfolioValidator.validate_transaction_type`: reject empty, strip +
uppercase, then membership in the six type names. -/
def validate_transaction_type (transaction_type : String) : Except PError String :=
  if transaction_type = "" then
    .error (.validationError "Transaction type cannot be empty")
  else
    let t := pyUpper (pyStrip transaction_type)
    if t = "BUY" ∨ t = "SELL" ∨ t = "DIVIDEND" ∨ t = "SPLIT" ∨
        t = "TRANSFER_IN" ∨ t = "TRANSFER_OUT" then .ok t
    else .error (.validationError "Invalid transaction type")

/-- `PortfolioValidator.validate_notes`: `None` passes through, strip,
empty normalizes to `None`, length-checked. -/
def validate_notes (notes : Option String) (max_length : Nat := 1000) :
    Except PError (Option String) :=
  match notes with
  | none => .ok none
  | some n =>
    let t := pyStrip n
    if t = "" then .ok none
    else if t.length > max_length then .error (.validationError "Notes too long")
    else .ok (some t)

/-- `PortfolioValidator.validate_position_id`: non-empty before and after
strip. -/
def validate_position_id (position_id : String) : Except PError String :=
  if position_id = "" then .error (.validationError "Position ID cannot be empty")
  else
    let t := pyStrip position_id
    if t = "" then .error (.validationError "Position ID cannot be empty")
    else .ok t

/-! ### database/repository.py: store semantics

The store for one portfolio partition: holdings and transactions are records
keyed by `id` (ids are unique: `create` raises `DuplicateItemException` on an
existing id), the portfolio is the single record keyed by the partition's
portfolio id. -/

structure PState where
  holdings : List Holding
  transactions : List Transaction
  portfolio : Option Portfolio
deriving DecidableEq, Repr

/-- `get_by_id` on the holdings container. -/
def findHolding (item_id : String) (s : PState) : Option Holding :=
  s.holdings.find? (fun h => h.id == item_id)

/-- `create` on the holdings container: `DuplicateItemException` if the id
exists. -/
def holdingsCreate (h : Holding) (s : PState) : Except PError PState :=
  if s.holdings.any (fun x => x.id == h.id) then
    .error (.duplicateItem "Item already exists")
  else .ok { s with holdings := s.holdings ++ [h] }

/-- `create` on the transactions container. -/
def transactionsCreate (t : Transaction) (s : PState) : Except PError PState :=
  if s.transactions.any (fun x => x.id == t.id) then
    .error (.duplicateItem "Item already exists")
  else .ok { s with transactions := s.transactions ++ [t] }

/-- `update` on the holdings container: refreshes `updated_at`
(the repository's `hasattr(item, 'updated_at')` branch), then replaces the
record with that id; `ItemNotFoundException` if absent. -/
def holdingsUpdate (item_id : String) (h : Holding) (now : DateTime) (s : PState) :
    Except PError (Holding × PState) :=
  if s.holdings.any (fun x => x.id == item_id) then
    let h' := { h with updated_at := now }
    .ok (h', { s with holdings := s.holdings.map fun x => if x.id = item_id then h' else x })
  else .error (.itemNotFound "Item not found")

/-- `delete` on the holdings container: `True` iff the record existed. -/
def holdingsDelete (item_id : String) (s : PState) : Bool × PState :=
  if s.holdings.any (fun x => x.id == item_id) then
    (true, { s with holdings := s.holdings.filter fun x => x.id != item_id })
  else (false, s)

/-- `update` on the portfolio container: refreshes `last_updated`
(the repository's `hasattr(item, 'last_updated')` branch), then replaces the
record; `ItemNotFoundException` if absent. -/
def portfolioUpdate (p : Portfolio) (now : DateTime) (s : PState) :
    Except PError (Portfolio × PState) :=
  match s.portfolio with
  | some _ =>
    let p' := { p with last_updated := now }
    .ok (p', { s with portfolio := some p' })
  | none => .error (.itemNotFound "Item not found")

/-! ### services/portfolio_service.py

State-passing embedding: each operation returns `(outcome, state)`, threading
the state through every repository write so that an exception raised after a
write leaves that write in place (the source has no rollback). -/

/-- `PortfolioService.get_or_create_portfolio`.  `concurrent` models a
portfolio record written by a concurrent caller between the read and the
create (`none` in sequential runs).  Note the source wraps the create in no
try/except: a `DuplicateItemException` from the create propagates. -/
def getOrCreatePortfolio (concurrent : Option Portfolio) (now : DateTime)
    (portfolio_id : String) (s : PState) : Except PError Portfolio × PState :=
  match s.portfolio with
  | some p => (.ok p, s)
  | none =>
    let s1 : PState :=
      match concurrent with
      | some pc => { s with portfolio := some pc }
      | none => s
    match s1.portfolio with
    | some _ => (.error (.duplicateItem "Item already exists"), s1)
    | none =>
      let p : Portfolio := ⟨portfolio_id, 100000, now, now⟩
      (.ok p, { s1 with portfolio := some p })

/-- `CosmosPortfolioRepository.create_default_portfolio` (repository layer):
creates `Portfolio(id="default")` — the model default cash balance 0 — and
catches a duplicate-create, re-reading and returning the existing record. -/
def createDefaultPortfolio (concurrent : Option Portfolio) (now : DateTime)
    (s : PState) : Except PError Portfolio × PState :=
  let s1 : PState :=
    match concurrent with
    | some pc => { s with portfolio := some pc }
    | none => s
  match s1.portfolio with
  | some existing => (.ok existing, s1)
  | none =>
    let p : Portfolio := ⟨"default", 0, now, now⟩
    (.ok p, { s1 with portfolio := some p })

/-- `PortfolioService.get_cash_balance`. -/
def getCashBalance (now : DateTime) (portfolio_id : String) (s : PState) :
    Except PError ℚ × PState :=
  match getOrCreatePortfolio none now portfolio_id s with
  | (.ok p, s1) => (.ok p.cash_balance, s1)
  | (.error e, s1) => (.error e, s1)

/-- `PortfolioService.update_cash_balance`. -/
def updateCashBalance (amount : ℚ) (operation : String) (now : DateTime)
    (portfolio_id : String) (s : PState) : Except PError ℚ × PState :=
  if amount < 0 then (.error (.validationError "Amount must be positive"), s)
  else if ¬(operation = "add" ∨ operation = "subtract") then
    (.error (.validationError "Invalid operation"), s)
  else
    match getOrCreatePortfolio none now portfolio_id s with
    | (.error e, s1) => (.error e, s1)
    | (.ok p, s1) =>
      let applied : Except PError Portfolio :=
        if operation = "add" then p.add_cash amount now
        else if amount > p.cash_balance then
          .error (.insufficientFunds "Insufficient funds")
        else p.withdraw_cash amount now
      match applied with
      | .error e => (.error e, s1)
      | .ok p' =>
        match portfolioUpdate p' now s1 with
        | .error e => (.error e, s1)
        | .ok (_, s2) => (.ok p'.cash_balance, s2)

structure AddHoldingResult where
  holding : Holding
  transaction : Transaction
  total_cost : ℚ
  new_cash_balance : ℚ
deriving DecidableEq, Repr

/-- `PortfolioService.add_holding`.  `hid` and `tid` are the two generated
uuids, `now` is `datetime.utcnow`. -/
def addHolding (hid tid : String) (now : DateTime) (ticker : String)
    (quantity purchase_price : ℚ) (purchase_date : Option String)
    (notes : Option String) (portfolio_id : String) (s : PState) :
    Except PError AddHoldingResult × PState :=
  match validate_ticker ticker with
  | .error e => (.error e, s)
  | .ok tk =>
    match validate_quantity quantity with
    | .error e => (.error e, s)
    | .ok q =>
      match validate_price purchase_price with
      | .error e => (.error e, s)
      | .ok pr =>
        match validate_date purchase_date now with
        | .error e => (.error e, s)
        | .ok pd =>
          match validate_notes notes with
          | .error e => (.error e, s)
          | .ok nts =>
            let total_cost := q * pr
            match getCashBalance now portfolio_id s with
            | (.error e, s1) => (.error e, s1)
            | (.ok current_balance, s1) =>
              if total_cost > current_balance then
                (.error (.insufficientFunds "Insufficient funds"), s1)
              else
                match Holding.pydantic hid portfolio_id tk q pr pd nts now now with
                | .error e => (.error e, s1)
                | .ok holding =>
                  match holdingsCreate holding s1 with
                  | .error e => (.error e, s1)
                  | .ok s2 =>
                    match Transaction.pydantic tid portfolio_id .buy (some tk)
                        (some q) pr (-total_cost) pd
                        (some "Purchase of shares") now with
                    | .error e => (.error e, s2)
                    | .ok txn =>
                      match transactionsCreate txn s2 with
                      | .error e => (.error e, s2)
                      | .ok s3 =>
                        match updateCashBalance total_cost "subtract" now
                            portfolio_id s3 with
                        | (.error e, s4) => (.error e, s4)
                        | (.ok nb, s4) =>
                          (.ok ⟨holding, txn, total_cost, nb⟩, s4)

structure RemoveHoldingResult where
  transaction : Transaction
  quantity_sold : ℚ
  proceeds : ℚ
  new_cash_balance : ℚ
  holding_removed : Bool
  remaining_quantity : ℚ
deriving DecidableEq, Repr

/-- `PortfolioService.remove_holding`. -/
def removeHolding (tid : String) (now : DateTime) (position_id : String)
    (quantity : Option ℚ) (portfolio_id : String) (s : PState) :
    Except PError RemoveHoldingResult × PState :=
  match validate_position_id position_id with
  | .error e => (.error e, s)
  | .ok pidv =>
    match findHolding pidv s with
    | none => (.error (.itemNotFound "Holding not found"), s)
    | some holding =>
      let qres : Except PError (ℚ × Bool) :=
        match quantity with
        | none => .ok (holding.quantity, true)
        | some q0 =>
          match validate_quantity q0 with
          | .error e => .error e
          | .ok q =>
            if q > holding.quantity then
              .error (.validationError "Cannot sell more shares than held")
            else .ok (q, decide (q = holding.quantity))
      match qres with
      | .error e => (.error e, s)
      | .ok (quantity_to_sell, is_full_sale) =>
        let proceeds := quantity_to_sell * holding.purchase_price
        let s2res : Except PError PState :=
          if is_full_sale then .ok (holdingsDelete pidv s).2
          else
            let hdec : Holding :=
              { holding with
                quantity := holding.quantity - quantity_to_sell
                updated_at := now }
            match holdingsUpdate pidv hdec now s with
            | .error e => .error e
            | .ok (_, s2) => .ok s2
        match s2res with
        | .error e => (.error e, s)
        | .ok s2 =>
          match Transaction.pydantic tid portfolio_id .sell (some holding.ticker)
              (some quantity_to_sell) holding.purchase_price proceeds now
              (some "Sale of shares") now with
          | .error e => (.error e, s2)
          | .ok txn =>
            match transactionsCreate txn s2 with
            | .error e => (.error e, s2)
            | .ok s3 =>
              match updateCashBalance proceeds "add" now portfolio_id s3 with
              | (.error e, s4) => (.error e, s4)
              | (.ok nb, s4) =>
                (.ok ⟨txn, quantity_to_sell, proceeds, nb, is_full_sale,
                  if is_full_sale then 0
                  else holding.quantity - quantity_to_sell⟩, s4)

/-- `PortfolioService.update_position`. -/
def updatePosition (now : DateTime) (position_id : String)
    (notes : Option String) (purchase_price : Option ℚ) (portfolio_id : String)
    (s : PState) : Except PError Holding × PState :=
  match validate_position_id position_id with
  | .error e => (.error e, s)
  | .ok pidv =>
    match findHolding pidv s with
    | none => (.error (.itemNotFound "Holding not found"), s)
    | some holding =>
      let step1 : Except PError (Holding × Bool) :=
        match notes with
        | none => .ok (holding, false)
        | some n =>
          match validate_notes (some n) with
          | .error e => .error e
          | .ok nv => .ok ({ holding with notes := nv }, true)
      match step1 with
      | .error e => (.error e, s)
      | .ok (h1, upd1) =>
        let step2 : Except PError (Holding × Bool) :=
          match purchase_price with
          | none => .ok (h1, upd1)
          | some pr0 =>
            match validate_price pr0 with
            | .error e => .error e
            | .ok pr => .ok ({ h1 with purchase_price := pr }, true)
        match step2 with
        | .error e => (.error e, s)
        | .ok (h2, updated) =>
          if updated then
            match holdingsUpdate pidv { h2 with updated_at := now } now s with
            | .error e => (.error e, s)
            | .ok (h3, s2) => (.ok h3, s2)
          else (.error (.validationError "No fields to update"), s)

structure TxHistoryResult where
  transactions : List Transaction
  count : Nat
deriving DecidableEq, Repr

/-- Python truthiness of an optional string (`if ticker:` etc.). -/
def strTruthy : Option String → Bool
  | none => false
  | some x => x ≠ ""

/-- Sort comparator for `filtered.sort(key=lambda t: t.date, reverse=True)`:
a stable descending sort by date. -/
def txDateDesc (a b : Transaction) : Bool := b.date.le a.date

/-- `PortfolioService.get_transaction_history`. -/
def getTransactionHistory (ticker : Option String)
    (start_date end_date : Option String) (transaction_type : Option String)
    (limit : Int) (now : DateTime) (portfolio_id : String) (s : PState) :
    Except PError TxHistoryResult × PState :=
  let tickres : Except PError (Option String) :=
    if strTruthy ticker then
      match validate_ticker (ticker.getD "") with
      | .error e => .error e
      | .ok tk => .ok (some tk)
    else .ok none
  match tickres with
  | .error e => (.error e, s)
  | .ok tk =>
    let typeres : Except PError (Option String) :=
      if strTruthy transaction_type then
        match validate_transaction_type (transaction_type.getD "") with
        | .error e => .error e
        | .ok tt => .ok (some tt)
      else .ok none
    match typeres with
    | .error e => (.error e, s)
    | .ok tt =>
      let startres : Except PError (Option DateTime) :=
        if strTruthy start_date then
          match validate_date start_date now with
          | .error e => .error e
          | .ok d => .ok (some d)
        else .ok none
      match startres with
      | .error e => (.error e, s)
      | .ok sd =>
        let endres : Except PError (Option DateTime) :=
          if strTruthy end_date then
            match validate_date end_date now with
            | .error e => .error e
            | .ok d => .ok (some d)
          else .ok none
        match endres with
        | .error e => (.error e, s)
        | .ok ed =>
          let lim : Int := min (max 1 limit) 200
          let base : List Transaction :=
            match tk with
            | some t => s.transactions.filter (fun x => x.ticker == some t)
            | none => s.transactions
          let f1 : List Transaction :=
            match tt with
            | some ty => base.filter (fun x => x.type.value.toUpper == ty)
            | none => base
          let f2 : List Transaction :=
            match sd with
            | some d => f1.filter (fun x => d.le x.date)
            | none => f1
          let f3 : List Transaction :=
            match ed with
            | some d => f2.filter (fun x => x.date.le d)
            | none => f2
          let sorted := f3.mergeSort txDateDesc
          let limited := sorted.take lim.toNat
          (.ok ⟨limited, limited.length⟩, s)

/-! ### tools/portfolio_tools.py: tool-boundary error classification

`add_to_portfolio` catches the validators' `ValidationError`, then
`InsufficientFundsError`, then any other exception (pydantic's validation
error, repository exceptions, ValueError, ...) as `internal_error`. -/

def toolClassify : PError → String
  | .validationError _ => "validation_error"
  | .insufficientFunds _ => "insufficient_funds"
  | _ => "internal_error"

/-! ### helper lemmas about the validators -/

theorem validate_quantity_ok {q q' : ℚ} (h : validate_quantity q = .ok q') :
    q' = q ∧ 0 < q := by
  simp only [validate_quantity] at h
  split at h
  · exact absurd h (by simp)
  · split at h
    · exact absurd h (by simp)
    · split at h
      · exact absurd h (by simp)
      · rename_i hneg hz _
        simp only [Except.ok.injEq] at h
        refine ⟨h.symm, ?_⟩
        rcases lt_trichotomy q 0 with hc | hc | hc
        · exact absurd hc hneg
        · exact absurd ⟨by simp, hc⟩ hz
        · exact hc

theorem validate_price_ok {q q' : ℚ} (h : validate_price q = .ok q') :
    q' = q ∧ 0 < q := by
  simp only [validate_price] at h
  split at h
  · exact absurd h (by simp)
  · split at h
    · exact absurd h (by simp)
    · rename_i hneg hz
      simp only [Except.ok.injEq] at h
      refine ⟨h.symm, ?_⟩
      rcases lt_trichotomy q 0 with hc | hc | hc
      · exact absurd hc hneg
      · exact absurd ⟨by simp, hc⟩ hz
      · exact hc

theorem mapFixed {f : Char → Char} :
    ∀ l : List Char, (∀ c ∈ l, f c = c) → l.map f = l
  | [], _ => rfl
  | c :: cs, h => by
    rw [List.map_cons, h c (by simp), mapFixed cs (fun x hx => h x (by simp [hx]))]

theorem toUpper_of_isUpperLetter {c : Char} (h : isUpperLetter c = true) :
    c.toUpper = c := by
  simp only [isUpperLetter, Bool.and_eq_true, decide_eq_true_eq] at h
  obtain ⟨h1, h2⟩ := h
  simp only [Char.toUpper]
  rw [if_neg]
  omega

theorem toUpper_dot : Char.toUpper '.' = '.' := by decide

/-- Every character of a regex-matching ticker is an upper-case letter or a
dot. -/
theorem tickerPattern_chars {l : List Char} (h : tickerPattern l = true) :
    ∀ c ∈ l, isUpperLetter c = true ∨ c = '.' := by
  simp only [tickerPattern, Bool.and_eq_true, Bool.or_eq_true] at h
  obtain ⟨⟨h1, h2⟩, h3⟩ := h
  intro c hc
  rw [← List.takeWhile_append_dropWhile (p := isUpperLetter) (l := l)] at hc
  rcases List.mem_append.mp hc with hpre | hrest
  · exact Or.inl (List.mem_takeWhile_imp hpre)
  · rcases h3 with hemp | hdot
    · rw [List.isEmpty_iff] at hemp
      rw [hemp] at hrest
      exact absurd hrest (List.not_mem_nil c)
    · cases hr : l.dropWhile isUpperLetter with
      | nil =>
        rw [hr] at hrest
        exact absurd hrest (List.not_mem_nil c)
      | cons a suf =>
        rw [hr] at hrest hdot
        simp only [List.head?_cons, List.tail_cons, Bool.and_eq_true,
          beq_iff_eq, Option.some.injEq, List.all_eq_true] at hdot
        obtain ⟨⟨⟨ha, _⟩, _⟩, hall⟩ := hdot
        rcases List.mem_cons.mp hrest with hc1 | hc2
        · exact Or.inr (hc1.trans ha)
        · exact Or.inl (hall c hc2)

theorem tickerPattern_length {l : List Char} (h : tickerPattern l = true) :
    1 ≤ l.length := by
  cases l with
  | nil => exact absurd h (by decide)
  | cons a as => simp

theorem validate_ticker_ok {t tk : String} (h : validate_ticker t = .ok tk) :
    tk = pyUpper (pyStrip t) ∧ tickerPattern tk.data = true ∧ 1 ≤ tk.length ∧
      pyUpper tk = tk := by
  simp only [validate_ticker] at h
  split at h
  · exact absurd h (by simp)
  · split at h
    · rename_i hpat
      simp only [Except.ok.injEq] at h
      subst h
      refine ⟨rfl, hpat, tickerPattern_length hpat, ?_⟩
      unfold pyUpper
      rw [mapFixed _ (fun c hc => by
        rcases tickerPattern_chars hpat c hc with hu | hd
        · exact toUpper_of_isUpperLetter hu
        · rw [hd]; exact toUpper_dot)]
    · exact absurd h (by simp)

/-! ### helper lemmas about the service primitives -/

theorem getOrCreatePortfolio_some {s : PState} {p : Portfolio}
    (c : Option Portfolio) (now : DateTime) (pid : String)
    (hp : s.portfolio = some p) :
    getOrCreatePortfolio c now pid s = (.ok p, s) := by
  simp [getOrCreatePortfolio, hp]

theorem getCashBalance_some {s : PState} {p : Portfolio} (now : DateTime)
    (pid : String) (hp : s.portfolio = some p) :
    getCashBalance now pid s = (.ok p.cash_balance, s) := by
  simp [getCashBalance, getOrCreatePortfolio_some none now pid hp]

theorem updateCashBalance_add {s : PState} {p : Portfolio} {a : ℚ}
    (now : DateTime) (pid : String) (hp : s.portfolio = some p) (ha : 0 < a) :
    updateCashBalance a "add" now pid s =
      (.ok (p.cash_balance + a),
        { s with portfolio := some ⟨p.id, p.cash_balance + a, now, p.created_at⟩ }) := by
  have h0 : ¬ (a < 0) := by linarith
  have h1 : ¬ (a ≤ 0) := by linarith
  rw [updateCashBalance, if_neg h0, if_neg (by simp)]
  rw [getOrCreatePortfolio_some none now pid hp]
  dsimp only
  rw [if_pos rfl, Portfolio.add_cash, if_neg h1]
  dsimp only
  rw [portfolioUpdate, hp]

theorem updateCashBalance_subtract {s : PState} {p : Portfolio} {a : ℚ}
    (now : DateTime) (pid : String) (hp : s.portfolio = some p) (ha : 0 < a)
    (hle : a ≤ p.cash_balance) :
    updateCashBalance a "subtract" now pid s =
      (.ok (p.cash_balance - a),
        { s with portfolio := some ⟨p.id, p.cash_balance - a, now, p.created_at⟩ }) := by
  have h0 : ¬ (a < 0) := by linarith
  have h1 : ¬ (a ≤ 0) := by linarith
  have h2 : ¬ (a > p.cash_balance) := by linarith
  rw [updateCashBalance, if_neg h0, if_neg (by simp)]
  rw [getOrCreatePortfolio_some none now pid hp]
  dsimp only
  rw [if_neg (by decide), if_neg h2, Portfolio.withdraw_cash, if_neg h1, if_neg h2]
  dsimp only
  rw [portfolioUpdate, hp]

theorem updateCashBalance_subtract_insufficient {s : PState} {p : Portfolio}
    {a : ℚ} (now : DateTime) (pid : String) (hp : s.portfolio = some p)
    (ha : 0 ≤ a) (hgt : a > p.cash_balance) :
    updateCashBalance a "subtract" now pid s =
      (.error (.insufficientFunds "Insufficient funds"), s) := by
  have h0 : ¬ (a < 0) := by linarith
  rw [updateCashBalance, if_neg h0, if_neg (by simp)]
  rw [getOrCreatePortfolio_some none now pid hp]
  dsimp only
  rw [if_neg (by decide), if_pos hgt]

/-! ### concrete example values used by closed theorems -/

def exDate : DateTime := ⟨2024, 1, 1, 0, 0, 0, 0⟩

def exPortfolio : Portfolio := ⟨"default", 100000, exDate, exDate⟩

/-- Fresh store containing the default portfolio with the starting balance. -/
def exState : PState := ⟨[], [], some exPortfolio⟩

/-- A portfolio record written by a hypothetical concurrent creator. -/
def exConcurrent : Portfolio := ⟨"default", 55555, exDate, exDate⟩

/-! ### Claim C10 -/

/-- C10: there are tickers the validator accepts that the entity models
reject: `validate_ticker` admits `"ABCDEFGHIJ.KL"` (13 characters, pattern
`[A-Z]{1,10}(\.[A-Z]{1,3})?`), while `Holding.ticker` and
`Transaction.ticker` are constrained to max_length 10, so `add_holding`
called with such a ticker fails with a pydantic validation error — a class
the tool boundary does not catch as `ValidationError` — and is reported as
`internal_error`, not `validation_error`. -/
theorem C10_theorem :
    validate_ticker "ABCDEFGHIJ.KL" = .ok "ABCDEFGHIJ.KL" ∧
    10 < "ABCDEFGHIJ.KL".length ∧
    Holding.pydantic "h2" "default" "ABCDEFGHIJ.KL" 1 1 exDate none exDate exDate
      = .error (.pydanticError "ticker: string should have at most 10 characters") ∧
    Transaction.pydantic "t2" "default" .buy (some "ABCDEFGHIJ.KL") (some 1) 1
        (-1) exDate none exDate
      = .error (.pydanticError "ticker: string should have at most 10 characters") ∧
    (addHolding "h2" "t2" exDate "ABCDEFGHIJ.KL" 1 1 none none "default"
        exState).1
      = .error (.pydanticError "ticker: string should have at most 10 characters") ∧
    toolClassify
        (.pydanticError "ticker: string should have at most 10 characters")
      = "internal_error" := by
  refine ⟨by decide, by decide, by decide, by decide, by decide, rfl⟩

/-! ### Claim C1 -/

/-- C1 fails as stated: `"ABCDEFGHIJ.KL"` is a valid ticker for the
validator, the quantity is a whole number > 0, the price is > 0 and the
total cost 1 is within the 100000 balance, yet `add_holding` creates
nothing and returns no new balance — it raises pydantic's validation error
on `Holding` construction (ticker max_length 10) and the state is
unchanged. -/
theorem C1_counterexample :
    validate_ticker "ABCDEFGHIJ.KL" = .ok "ABCDEFGHIJ.KL" ∧
    (1 : ℚ) * 1 ≤ exPortfolio.cash_balance ∧
    addHolding "h1" "t1" exDate "ABCDEFGHIJ.KL" 1 1 none none "default" exState
      = (.error (.pydanticError "ticker: string should have at most 10 characters"),
          exState) := by
  refine ⟨by decide, by norm_num [exPortfolio], by decide⟩

theorem any_beq_eq_false {α : Type} (f : α → String) {l : List α} {i : String}
    (h : l.all (fun x => f x != i) = true) :
    (l.any fun x => f x == i) = false := by
  rw [List.any_eq_false]
  intro x hx
  have := List.all_eq_true.mp h x hx
  simpa using this

/-- C1 (amended): for every buy request whose ticker the validator accepts
*and whose normalized form fits the entities' 10-character bound*, with a
whole-number quantity > 0, price > 0 and `quantity*price` within the cash
balance, `add_holding` creates the holding (normalized-uppercase ticker,
that quantity and price), records a BUY transaction with
`total = -(quantity*price)`, and returns and persists a new cash balance
equal to the old balance minus `quantity*price`. -/
theorem C1_amended
    (hid tid : String) (now : DateTime) (ticker : String)
    (quantity price : ℚ) (purchase_date notes : Option String) (pid : String)
    (s : PState) (p : Portfolio) (tk : String) (q pr : ℚ) (pd : DateTime)
    (nts : Option String)
    (hvt : validate_ticker ticker = .ok tk)
    (hlen : tk.length ≤ 10)
    (hvq : validate_quantity quantity = .ok q)
    (hvp : validate_price price = .ok pr)
    (hvd : validate_date purchase_date now = .ok pd)
    (hvn : validate_notes notes = .ok nts)
    (hport : s.portfolio = some p)
    (hfresh : s.holdings.all (fun x => x.id != hid) = true)
    (htfresh : s.transactions.all (fun x => x.id != tid) = true)
    (hfund : q * pr ≤ p.cash_balance) :
    addHolding hid tid now ticker quantity price purchase_date notes pid s =
      (.ok ⟨⟨hid, pid, tk, q, pr, pd, nts, now, now⟩,
          ⟨tid, pid, .buy, some tk, some q, pr, -(q * pr), pd,
            some "Purchase of shares", now⟩, q * pr, p.cash_balance - q * pr⟩,
        ⟨s.holdings ++ [⟨hid, pid, tk, q, pr, pd, nts, now, now⟩],
          s.transactions ++ [⟨tid, pid, .buy, some tk, some q, pr, -(q * pr),
            pd, some "Purchase of shares", now⟩],
          some ⟨p.id, p.cash_balance - q * pr, now, p.created_at⟩⟩) := by
  obtain ⟨-, -, hlen1, hup⟩ := validate_ticker_ok hvt
  obtain ⟨hqe, hqpos⟩ := validate_quantity_ok hvq
  obtain ⟨hpe, hppos⟩ := validate_price_ok hvp
  have hq0 : 0 < q := by rw [hqe]; exact hqpos
  have hp0 : 0 < pr := by rw [hpe]; exact hppos
  have htot : 0 < q * pr := mul_pos hq0 hp0
  have hanyh : (s.holdings.any fun x => x.id == hid) = false :=
    any_beq_eq_false _ hfresh
  have hanyt : (s.transactions.any fun x => x.id == tid) = false :=
    any_beq_eq_false _ htfresh
  unfold addHolding
  rw [hvt, hvq, hvp, hvd, hvn]
  dsimp only
  rw [getCashBalance_some now pid hport]
  dsimp only
  rw [if_neg (not_lt.mpr hfund)]
  rw [Holding.pydantic]
  rw [if_neg (show ¬ (tk.length < 1) by omega),
    if_neg (show ¬ (10 < tk.length) by omega),
    if_neg (not_le.mpr hq0), if_neg (not_le.mpr hp0)]
  dsimp only
  rw [holdingsCreate,
    if_neg (show ¬ ((s.holdings.any fun x => x.id == hid) = true) by
      simp [hanyh])]
  dsimp only
  rw [Transaction.pydantic]
  dsimp only [Option.elim, Option.map]
  rw [if_neg (show ¬ (decide (tk.length < 1) = true) by
      simp only [decide_eq_true_eq]; omega),
    if_neg (show ¬ (decide (10 < tk.length) = true) by
      simp only [decide_eq_true_eq]; omega),
    if_neg (show ¬ (decide (q ≤ 0) = true) by
      simp only [decide_eq_true_eq, not_le]; exact hq0),
    if_neg (not_lt.mpr (le_of_lt hp0))]
  dsimp only
  rw [transactionsCreate,
    if_neg (show ¬ ((s.transactions.any fun x => x.id == tid) = true) by
      simp [hanyt])]
  dsimp only
  rw [hup]
  have key := @updateCashBalance_subtract
    ⟨s.holdings ++ [⟨hid, pid, tk, q, pr, pd, nts, now, now⟩],
      s.transactions ++ [⟨tid, pid, .buy, some tk, some q, pr, -(q * pr), pd,
        some "Purchase of shares", now⟩], s.portfolio⟩
    p (q * pr) now pid hport htot hfund
  rw [key]

theorem C1_witness :
    addHolding "h1" "t1" exDate "aapl" 10 150 none none "default" exState =
      (.ok ⟨⟨"h1", "default", "AAPL", 10, 150, exDate, none, exDate, exDate⟩,
          ⟨"t1", "default", .buy, some "AAPL", some 10, 150, -1500, exDate,
            some "Purchase of shares", exDate⟩, 1500, 98500⟩,
        ⟨[⟨"h1", "default", "AAPL", 10, 150, exDate, none, exDate, exDate⟩],
          [⟨"t1", "default", .buy, some "AAPL", some 10, 150, -1500, exDate,
            some "Purchase of shares", exDate⟩],
          some ⟨"default", 98500, exDate, exDate⟩⟩) := by
  have key := C1_amended "h1" "t1" exDate "aapl" 10 150 none none "default"
    exState exPortfolio "AAPL" 10 150 exDate none
    (by decide) (by decide) (by decide) (by decide) (by decide) (by decide)
    rfl rfl rfl (by decide)
  rw [key]
  norm_num [exState, exPortfolio]

/-! ### Claim C2 -/

/-- C2: for every buy request whose total cost strictly exceeds the current
cash balance, `add_holding` reports `InsufficientFunds` and performs no
write: the returned state is exactly the input state (no holding, no
transaction, no balance change). -/
theorem C2_theorem
    (hid tid : String) (now : DateTime) (ticker : String)
    (quantity price : ℚ) (purchase_date notes : Option String) (pid : String)
    (s : PState) (p : Portfolio) (tk : String) (q pr : ℚ) (pd : DateTime)
    (nts : Option String)
    (hvt : validate_ticker ticker = .ok tk)
    (hvq : validate_quantity quantity = .ok q)
    (hvp : validate_price price = .ok pr)
    (hvd : validate_date purchase_date now = .ok pd)
    (hvn : validate_notes notes = .ok nts)
    (hport : s.portfolio = some p)
    (hfund : q * pr > p.cash_balance) :
    addHolding hid tid now ticker quantity price purchase_date notes pid s =
      (.error (.insufficientFunds "Insufficient funds"), s) := by
  unfold addHolding
  rw [hvt, hvq, hvp, hvd, hvn]
  dsimp only
  rw [getCashBalance_some now pid hport]
  dsimp only
  rw [if_pos hfund]

theorem C2_witness :
    addHolding "h3" "t3" exDate "AAPL" 1000000 150 none none "default" exState
      = (.error (.insufficientFunds "Insufficient funds"), exState) := by
  have key := C2_theorem "h3" "t3" exDate "AAPL" 1000000 150 none none
    "default" exState exPortfolio "AAPL" 1000000 150 exDate none
    (by decide) (by decide) (by decide) (by decide) (by decide) rfl (by decide)
  exact key

/-! ### Claim C5 -/

/-- C5 fails as stated: when the portfolio record is absent and a concurrent
caller creates it between the service's read and create, the
`DuplicateItemException` from the create propagates out of
`get_or_create_portfolio` — the service wraps the create in no try/except.
(The catch-and-re-read behavior exists only in the repository's
`create_default_portfolio`, which the service never calls.) -/
theorem C5_counterexample :
    getOrCreatePortfolio (some exConcurrent) exDate "default" ⟨[], [], none⟩ =
      (.error (.duplicateItem "Item already exists"),
        ⟨[], [], some exConcurrent⟩) := by
  decide

/-- C5 (amended): `get_or_create_portfolio` creates the portfolio with the
default cash balance 100000 when absent and returns the existing record when
present, but it does not catch a duplicate-create: under a concurrent create
race the `DuplicateItemException` propagates.  The catch-and-re-read
behavior lives only in `CosmosPortfolioRepository.create_default_portfolio`
(unused by the service, and creating with the model default balance 0). -/
theorem C5_amended (now : DateTime) (pid : String) (s : PState)
    (pc : Portfolio) :
    (s.portfolio = none →
      getOrCreatePortfolio none now pid s =
        (.ok ⟨pid, 100000, now, now⟩,
          { s with portfolio := some ⟨pid, 100000, now, now⟩ })) ∧
    (∀ c p, s.portfolio = some p →
      getOrCreatePortfolio c now pid s = (.ok p, s)) ∧
    (s.portfolio = none →
      getOrCreatePortfolio (some pc) now pid s =
        (.error (.duplicateItem "Item already exists"),
          { s with portfolio := some pc })) ∧
    (s.portfolio = none →
      createDefaultPortfolio (some pc) now s =
        (.ok pc, { s with portfolio := some pc })) := by
  refine ⟨fun hn => ?_, fun c p hp => getOrCreatePortfolio_some c now pid hp,
    fun hn => ?_, fun hn => ?_⟩
  · simp [getOrCreatePortfolio, hn]
  · simp [getOrCreatePortfolio, hn]
  · simp [createDefaultPortfolio, hn]

theorem C5_witness :
    getOrCreatePortfolio none exDate "default" ⟨[], [], none⟩ =
      (.ok ⟨"default", 100000, exDate, exDate⟩,
        ⟨[], [], some ⟨"default", 100000, exDate, exDate⟩⟩) ∧
    getOrCreatePortfolio none exDate "default" exState = (.ok exPortfolio, exState) ∧
    createDefaultPortfolio (some exConcurrent) exDate ⟨[], [], none⟩ =
      (.ok exConcurrent, ⟨[], [], some exConcurrent⟩) :=
  ⟨(C5_amended exDate "default" ⟨[], [], none⟩ exConcurrent).1 rfl,
    (C5_amended exDate "default" exState exConcurrent).2.1 none exPortfolio rfl,
    (C5_amended exDate "default" ⟨[], [], none⟩ exConcurrent).2.2.2 rfl⟩

/-! ### Claim C6 -/

/-- C6 fails as stated: amount 0 meets the claim's precondition
(amount ≥ 0, operation "add"), but `update_cash_balance` raises neither
nothing nor `InsufficientFunds` — `Portfolio.add_cash` raises
`ValueError("Amount must be positive")` for a zero amount (and
`withdraw_cash` does the same on the subtract path). -/
theorem C6_counterexample :
    (0 : ℚ) ≥ 0 ∧
    updateCashBalance 0 "add" exDate "default" exState =
      (.error (.valueError "Amount must be positive"), exState) ∧
    updateCashBalance 0 "subtract" exDate "default" exState =
      (.error (.valueError "Amount must be positive"), exState) := by
  refine ⟨le_refl 0, by decide, by decide⟩

/-- C6 (amended): for every amount > 0 and operation in add/subtract,
`update_cash_balance` applies the delta and returns the new balance, raising
`InsufficientFunds` exactly when the operation is subtract and the amount
strictly exceeds the current balance (and no other error); at amount = 0 a
`ValueError` propagates from `Portfolio.add_cash` / `withdraw_cash`. -/
theorem C6_amended (a : ℚ) (now : DateTime) (pid : String) (s : PState)
    (p : Portfolio) (hp : s.portfolio = some p) (ha : 0 < a) :
    (updateCashBalance a "add" now pid s =
      (.ok (p.cash_balance + a),
        { s with portfolio := some ⟨p.id, p.cash_balance + a, now, p.created_at⟩ })) ∧
    (a ≤ p.cash_balance →
      updateCashBalance a "subtract" now pid s =
        (.ok (p.cash_balance - a),
          { s with portfolio := some ⟨p.id, p.cash_balance - a, now, p.created_at⟩ })) ∧
    (a > p.cash_balance →
      updateCashBalance a "subtract" now pid s =
        (.error (.insufficientFunds "Insufficient funds"), s)) :=
  ⟨updateCashBalance_add now pid hp ha,
    fun hle => updateCashBalance_subtract now pid hp ha hle,
    fun hgt => updateCashBalance_subtract_insufficient now pid hp
      (le_of_lt ha) hgt⟩

theorem C6_witness :
    updateCashBalance 500 "add" exDate "default" exState =
      (.ok 100500, ⟨[], [], some ⟨"default", 100500, exDate, exDate⟩⟩) ∧
    updateCashBalance 40000 "subtract" exDate "default" exState =
      (.ok 60000, ⟨[], [], some ⟨"default", 60000, exDate, exDate⟩⟩) ∧
    updateCashBalance 200000 "subtract" exDate "default" exState =
      (.error (.insufficientFunds "Insufficient funds"), exState) := by
  have key := C6_amended 500 exDate "default" exState exPortfolio rfl (by norm_num)
  have key2 := C6_amended 40000 exDate "default" exState exPortfolio rfl (by norm_num)
  have key3 := C6_amended 200000 exDate "default" exState exPortfolio rfl (by norm_num)
  refine ⟨?_, ?_, key3.2.2 (by decide)⟩
  · rw [key.1]; decide
  · rw [key2.2.1 (by decide)]; decide

/-! ### Claim C9 -/

/-- C9: `from_dict (to_dict x) = x` for every Holding, Transaction and
Portfolio whose field values satisfy the entities' own pydantic constraints
and whose datetimes are in range: serialization to ISO-8601 date strings and
lowercase enum values followed by parsing is lossless. -/
theorem C9_theorem :
    (∀ h : Holding, h.PValid → Holding.from_dict h.to_dict = .ok h) ∧
    (∀ t : Transaction, t.PValid → Transaction.from_dict t.to_dict = .ok t) ∧
    (∀ p : Portfolio, p.PValid → Portfolio.from_dict p.to_dict = .ok p) :=
  ⟨fun _ hv => holding_from_dict_to_dict hv,
    fun _ hv => transaction_from_dict_to_dict hv,
    fun _ hv => portfolio_from_dict_to_dict hv⟩

def exHolding : Holding :=
  ⟨"h1", "default", "BRK.B", 10, 150, ⟨2024, 3, 15, 10, 30, 0, 123456⟩,
    some "note", exDate, exDate⟩

def exTransaction : Transaction :=
  ⟨"t1", "default", .transferOut, some "MSFT", some 2, 50, -100,
    ⟨2024, 2, 29, 23, 59, 59, 999999⟩, none, exDate⟩

theorem C9_witness :
    Holding.from_dict exHolding.to_dict = .ok exHolding ∧
    Transaction.from_dict exTransaction.to_dict = .ok exTransaction ∧
    Portfolio.from_dict exPortfolio.to_dict = .ok exPortfolio :=
  ⟨C9_theorem.1 exHolding (by decide),
    C9_theorem.2.1 exTransaction (by decide),
    C9_theorem.2.2 exPortfolio (by decide)⟩

theorem findHolding_any {i : String} {s : PState} {h : Holding}
    (hf : findHolding i s = some h) :
    (s.holdings.any fun x => x.id == i) = true := by
  unfold findHolding at hf
  have hp := @List.find?_some Holding (fun x => x.id == i) h s.holdings hf
  exact List.any_eq_true.mpr ⟨h, List.mem_of_find?_eq_some hf, hp⟩

/-! ### Claim C8 -/

/-- C8: `update_position` on an existing holding raises
`ValidationError` ("No fields to update") when neither notes nor price is
supplied; when at least one (valid) field is supplied it overwrites exactly
those fields and refreshes `updated_at`, replacing only that holding in the
store — the cash balance, the transaction list and every other holding are
untouched, and no transaction is created. -/
theorem C8_theorem (now : DateTime) (position_id : String) (pid : String)
    (s : PState) (pidv : String) (h : Holding)
    (hv : validate_position_id position_id = .ok pidv)
    (hfind : findHolding pidv s = some h) :
    (updatePosition now position_id none none pid s =
      (.error (.validationError "No fields to update"), s)) ∧
    (∀ n nv, validate_notes (some n) = .ok nv →
      updatePosition now position_id (some n) none pid s =
        (.ok { h with notes := nv, updated_at := now },
          { s with holdings := s.holdings.map fun x =>
            if x.id = pidv then { h with notes := nv, updated_at := now }
            else x })) ∧
    (∀ pr0 pr, validate_price pr0 = .ok pr →
      updatePosition now position_id none (some pr0) pid s =
        (.ok { h with purchase_price := pr, updated_at := now },
          { s with holdings := s.holdings.map fun x =>
            if x.id = pidv then { h with purchase_price := pr, updated_at := now }
            else x })) ∧
    (∀ n nv pr0 pr, validate_notes (some n) = .ok nv →
        validate_price pr0 = .ok pr →
      updatePosition now position_id (some n) (some pr0) pid s =
        (.ok { h with notes := nv, purchase_price := pr, updated_at := now },
          { s with holdings := s.holdings.map fun x =>
            if x.id = pidv then
              { h with notes := nv, purchase_price := pr, updated_at := now }
            else x })) := by
  have hany := findHolding_any hfind
  refine ⟨?_, fun n nv hn => ?_, fun pr0 pr hpr => ?_, fun n nv pr0 pr hn hpr => ?_⟩
  · unfold updatePosition
    rw [hv]
    dsimp only
    rw [hfind]
    rfl
  · unfold updatePosition
    rw [hv]
    dsimp only
    rw [hfind]
    dsimp only
    rw [hn]
    dsimp only
    rw [holdingsUpdate, if_pos hany]
    rfl
  · unfold updatePosition
    rw [hv]
    dsimp only
    rw [hfind]
    dsimp only
    rw [hpr]
    dsimp only
    rw [holdingsUpdate, if_pos hany]
    rfl
  · unfold updatePosition
    rw [hv]
    dsimp only
    rw [hfind]
    dsimp only
    rw [hn]
    dsimp only
    rw [hpr]
    dsimp only
    rw [holdingsUpdate, if_pos hany]
    rfl


/-! ### Claim C3 -/

/-- C3: `remove_holding` on an existing holding: with quantity omitted or
equal to the held quantity it deletes the holding and returns
`holding_removed = true`, `remaining_quantity = 0`; with
0 < quantity < held quantity it decrements the holding and returns
`holding_removed = false` with the decremented remaining quantity; in every
case proceeds = quantity_sold × the holding's purchase_price (not a live
market price), a SELL transaction with `total = +proceeds` is created, and
the cash balance increases by the proceeds. -/
theorem C3_theorem
    (tid : String) (now : DateTime) (position_id : String) (pid : String)
    (s : PState) (p : Portfolio) (pidv : String) (h : Holding)
    (hv : validate_position_id position_id = .ok pidv)
    (hfind : findHolding pidv s = some h)
    (hq0 : 0 < h.quantity)
    (hpr0 : 0 < h.purchase_price)
    (hlen1 : 1 ≤ h.ticker.length) (hlen10 : h.ticker.length ≤ 10)
    (hup : pyUpper h.ticker = h.ticker)
    (hport : s.portfolio = some p)
    (htfresh : s.transactions.all (fun x => x.id != tid) = true) :
    (removeHolding tid now position_id none pid s =
      (.ok ⟨⟨tid, pid, .sell, some h.ticker, some h.quantity, h.purchase_price,
            h.quantity * h.purchase_price, now, some "Sale of shares", now⟩,
          h.quantity, h.quantity * h.purchase_price,
          p.cash_balance + h.quantity * h.purchase_price, true, 0⟩,
        ⟨s.holdings.filter (fun x => x.id != pidv),
          s.transactions ++ [⟨tid, pid, .sell, some h.ticker, some h.quantity,
            h.purchase_price, h.quantity * h.purchase_price, now,
            some "Sale of shares", now⟩],
          some ⟨p.id, p.cash_balance + h.quantity * h.purchase_price, now,
            p.created_at⟩⟩)) ∧
    (∀ q0, validate_quantity q0 = .ok h.quantity →
      removeHolding tid now position_id (some q0) pid s =
      (.ok ⟨⟨tid, pid, .sell, some h.ticker, some h.quantity, h.purchase_price,
            h.quantity * h.purchase_price, now, some "Sale of shares", now⟩,
          h.quantity, h.quantity * h.purchase_price,
          p.cash_balance + h.quantity * h.purchase_price, true, 0⟩,
        ⟨s.holdings.filter (fun x => x.id != pidv),
          s.transactions ++ [⟨tid, pid, .sell, some h.ticker, some h.quantity,
            h.purchase_price, h.quantity * h.purchase_price, now,
            some "Sale of shares", now⟩],
          some ⟨p.id, p.cash_balance + h.quantity * h.purchase_price, now,
            p.created_at⟩⟩)) ∧
    (∀ q0 q, validate_quantity q0 = .ok q → q < h.quantity →
      removeHolding tid now position_id (some q0) pid s =
      (.ok ⟨⟨tid, pid, .sell, some h.ticker, some q, h.purchase_price,
            q * h.purchase_price, now, some "Sale of shares", now⟩,
          q, q * h.purchase_price, p.cash_balance + q * h.purchase_price,
          false, h.quantity - q⟩,
        ⟨s.holdings.map (fun x => if x.id = pidv then
            { h with quantity := h.quantity - q, updated_at := now } else x),
          s.transactions ++ [⟨tid, pid, .sell, some h.ticker, some q,
            h.purchase_price, q * h.purchase_price, now,
            some "Sale of shares", now⟩],
          some ⟨p.id, p.cash_balance + q * h.purchase_price, now,
            p.created_at⟩⟩)) := by
  have hany := findHolding_any hfind
  have hanyt := any_beq_eq_false (fun x : Transaction => x.id) htfresh
  have hposf : 0 < h.quantity * h.purchase_price := mul_pos hq0 hpr0
  refine ⟨?_, fun q0 hvq => ?_, fun q0 q hvq hlt => ?_⟩
  · unfold removeHolding
    rw [hv]
    dsimp only
    rw [hfind]
    dsimp only
    rw [if_pos rfl]
    rw [holdingsDelete, if_pos hany]
    dsimp only
    rw [Transaction.pydantic]
    dsimp only [Option.elim, Option.map]
    rw [if_neg (show ¬ (decide (h.ticker.length < 1) = true) by
        simp only [decide_eq_true_eq]; omega),
      if_neg (show ¬ (decide (10 < h.ticker.length) = true) by
        simp only [decide_eq_true_eq]; omega),
      if_neg (show ¬ (decide (h.quantity ≤ 0) = true) by
        simp only [decide_eq_true_eq, not_le]; exact hq0),
      if_neg (not_lt.mpr (le_of_lt hpr0))]
    dsimp only
    rw [transactionsCreate,
      if_neg (show ¬ ((s.transactions.any fun x => x.id == tid) = true) by
        simp [hanyt])]
    dsimp only
    rw [hup]
    have key := @updateCashBalance_add
      ⟨s.holdings.filter (fun x => x.id != pidv),
        s.transactions ++ [⟨tid, pid, .sell, some h.ticker, some h.quantity,
          h.purchase_price, h.quantity * h.purchase_price, now,
          some "Sale of shares", now⟩], s.portfolio⟩
      p (h.quantity * h.purchase_price) now pid hport hposf
    rw [key]
    rfl
  · unfold removeHolding
    rw [hv]
    dsimp only
    rw [hfind]
    dsimp only
    rw [hvq]
    dsimp only
    rw [if_neg (lt_irrefl h.quantity)]
    rw [show (decide (h.quantity = h.quantity) : Bool) = true from by simp]
    dsimp only
    rw [if_pos rfl]
    rw [holdingsDelete, if_pos hany]
    dsimp only
    rw [Transaction.pydantic]
    dsimp only [Option.elim, Option.map]
    rw [if_neg (show ¬ (decide (h.ticker.length < 1) = true) by
        simp only [decide_eq_true_eq]; omega),
      if_neg (show ¬ (decide (10 < h.ticker.length) = true) by
        simp only [decide_eq_true_eq]; omega),
      if_neg (show ¬ (decide (h.quantity ≤ 0) = true) by
        simp only [decide_eq_true_eq, not_le]; exact hq0),
      if_neg (not_lt.mpr (le_of_lt hpr0))]
    dsimp only
    rw [transactionsCreate,
      if_neg (show ¬ ((s.transactions.any fun x => x.id == tid) = true) by
        simp [hanyt])]
    dsimp only
    rw [hup]
    have key := @updateCashBalance_add
      ⟨s.holdings.filter (fun x => x.id != pidv),
        s.transactions ++ [⟨tid, pid, .sell, some h.ticker, some h.quantity,
          h.purchase_price, h.quantity * h.purchase_price, now,
          some "Sale of shares", now⟩], s.portfolio⟩
      p (h.quantity * h.purchase_price) now pid hport hposf
    rw [key]
    rfl
  · obtain ⟨hqe, hq0'⟩ := validate_quantity_ok hvq
    have hq0q : 0 < q := by rw [hqe]; exact hq0'
    have hposp : 0 < q * h.purchase_price := mul_pos hq0q hpr0
    unfold removeHolding
    rw [hv]
    dsimp only
    rw [hfind]
    dsimp only
    rw [hvq]
    dsimp only
    rw [if_neg (not_lt.mpr (le_of_lt hlt))]
    rw [show (decide (q = h.quantity) : Bool) = false from
      decide_eq_false (ne_of_lt hlt)]
    dsimp only
    rw [if_neg (show ¬ ((false : Bool) = true) by simp)]
    rw [holdingsUpdate, if_pos hany]
    dsimp only
    rw [Transaction.pydantic]
    dsimp only [Option.elim, Option.map]
    rw [if_neg (show ¬ (decide (h.ticker.length < 1) = true) by
        simp only [decide_eq_true_eq]; omega),
      if_neg (show ¬ (decide (10 < h.ticker.length) = true) by
        simp only [decide_eq_true_eq]; omega),
      if_neg (show ¬ (decide (q ≤ 0) = true) by
        simp only [decide_eq_true_eq, not_le]; exact hq0q),
      if_neg (not_lt.mpr (le_of_lt hpr0))]
    dsimp only
    rw [transactionsCreate,
      if_neg (show ¬ ((s.transactions.any fun x => x.id == tid) = true) by
        simp [hanyt])]
    dsimp only
    rw [hup]
    have key := @updateCashBalance_add
      ⟨s.holdings.map (fun x => if x.id = pidv then
          { h with quantity := h.quantity - q, updated_at := now } else x),
        s.transactions ++ [⟨tid, pid, .sell, some h.ticker, some q,
          h.purchase_price, q * h.purchase_price, now,
          some "Sale of shares", now⟩], s.portfolio⟩
      p (q * h.purchase_price) now pid hport hposp
    rw [key]
    rfl

def exHoldingA : Holding :=
  ⟨"h1", "default", "AAPL", 10, 150, exDate, none, exDate, exDate⟩

def exPortfolioB : Portfolio := ⟨"default", 98500, exDate, exDate⟩

/-- The store right after the C1 scenario buy. -/
def exStateB : PState := ⟨[exHoldingA], [], some exPortfolioB⟩

theorem C3_witness :
    removeHolding "t2" exDate "h1" (some 4) "default" exStateB =
      (.ok ⟨⟨"t2", "default", .sell, some "AAPL", some 4, 150, 600, exDate,
          some "Sale of shares", exDate⟩, 4, 600, 99100, false, 6⟩,
        ⟨[⟨"h1", "default", "AAPL", 6, 150, exDate, none, exDate, exDate⟩],
          [⟨"t2", "default", .sell, some "AAPL", some 4, 150, 600, exDate,
            some "Sale of shares", exDate⟩],
          some ⟨"default", 99100, exDate, exDate⟩⟩) ∧
    removeHolding "t3" exDate "h1" none "default" exStateB =
      (.ok ⟨⟨"t3", "default", .sell, some "AAPL", some 10, 150, 1500, exDate,
          some "Sale of shares", exDate⟩, 10, 1500, 100000, true, 0⟩,
        ⟨[], [⟨"t3", "default", .sell, some "AAPL", some 10, 150, 1500, exDate,
            some "Sale of shares", exDate⟩],
          some ⟨"default", 100000, exDate, exDate⟩⟩) := by
  have key := C3_theorem "t2" exDate "h1" "default" exStateB exPortfolioB "h1"
    exHoldingA (by decide) (by decide) (by decide) (by decide) (by decide)
    (by decide) (by decide) rfl rfl
  have key3 := C3_theorem "t3" exDate "h1" "default" exStateB exPortfolioB "h1"
    exHoldingA (by decide) (by decide) (by decide) (by decide) (by decide)
    (by decide) (by decide) rfl rfl
  constructor
  · rw [key.2.2 4 4 (by decide) (by decide)]
    decide
  · rw [key3.1]
    decide

theorem C8_witness :
    updatePosition exDate "h1" none none "default" exStateB =
      (.error (.validationError "No fields to update"), exStateB) ∧
    updatePosition exDate "h1" (some "long term") none "default" exStateB =
      (.ok ⟨"h1", "default", "AAPL", 10, 150, exDate, some "long term", exDate,
          exDate⟩,
        ⟨[⟨"h1", "default", "AAPL", 10, 150, exDate, some "long term", exDate,
          exDate⟩], [], some exPortfolioB⟩) ∧
    updatePosition exDate "h1" none (some 140) "default" exStateB =
      (.ok ⟨"h1", "default", "AAPL", 10, 140, exDate, none, exDate, exDate⟩,
        ⟨[⟨"h1", "default", "AAPL", 10, 140, exDate, none, exDate, exDate⟩],
          [], some exPortfolioB⟩) := by
  have key := C8_theorem exDate "h1" "default" exStateB "h1" exHoldingA
    (by decide) (by decide)
  refine ⟨key.1, ?_, ?_⟩
  · rw [key.2.1 "long term" (some "long term") (by decide)]
    decide
  · rw [key.2.2.1 140 140 (by decide)]
    decide

/-! ### Claim C4: the cash_balance ≥ 0 invariant -/

/-- The stored cash balance (0 when no portfolio record exists yet). -/
def cashOf (s : PState) : ℚ :=
  match s.portfolio with
  | some p => p.cash_balance
  | none => 0

def CashNonneg (s : PState) : Prop := 0 ≤ cashOf s

instance (s : PState) : Decidable (CashNonneg s) := by
  unfold CashNonneg; infer_instance

theorem cashOf_congr {s1 s2 : PState} (h : s2.portfolio = s1.portfolio) :
    cashOf s2 = cashOf s1 := by
  unfold cashOf
  rw [h]

theorem holdingsCreate_portfolio {h : Holding} {s s2 : PState}
    (heq : holdingsCreate h s = .ok s2) : s2.portfolio = s.portfolio := by
  unfold holdingsCreate at heq
  split at heq
  · exact absurd heq (by simp)
  · simp only [Except.ok.injEq] at heq
    rw [← heq]

theorem transactionsCreate_portfolio {t : Transaction} {s s2 : PState}
    (heq : transactionsCreate t s = .ok s2) : s2.portfolio = s.portfolio := by
  unfold transactionsCreate at heq
  split at heq
  · exact absurd heq (by simp)
  · simp only [Except.ok.injEq] at heq
    rw [← heq]

theorem holdingsUpdate_portfolio {i : String} {h h' : Holding} {now : DateTime}
    {s s2 : PState} (heq : holdingsUpdate i h now s = .ok (h', s2)) :
    s2.portfolio = s.portfolio := by
  unfold holdingsUpdate at heq
  split at heq
  · simp only [Except.ok.injEq, Prod.mk.injEq] at heq
    rw [← heq.2]
  · exact absurd heq (by simp)

theorem holdingsDelete_portfolio (i : String) (s : PState) :
    (holdingsDelete i s).2.portfolio = s.portfolio := by
  unfold holdingsDelete
  split <;> rfl

/-- `get_or_create_portfolio` (sequential run): always succeeds, the returned
state stores the returned portfolio, holdings/transactions are untouched, and
the returned balance is nonnegative whenever the invariant held before. -/
theorem gocp_spec (now : DateTime) (pid : String) (s : PState) :
    ∃ p s1, getOrCreatePortfolio none now pid s = (.ok p, s1) ∧
      s1.portfolio = some p ∧ s1.holdings = s.holdings ∧
      s1.transactions = s.transactions ∧
      (CashNonneg s → 0 ≤ p.cash_balance) := by
  cases hsp : s.portfolio with
  | some p =>
    refine ⟨p, s, ?_, hsp, rfl, rfl, fun hc => ?_⟩
    · simp [getOrCreatePortfolio, hsp]
    · unfold CashNonneg cashOf at hc
      rw [hsp] at hc
      exact hc
  | none =>
    refine ⟨⟨pid, 100000, now, now⟩, { s with portfolio := some ⟨pid, 100000, now, now⟩ },
      ?_, rfl, rfl, rfl, fun _ => by norm_num⟩
    simp [getOrCreatePortfolio, hsp]

theorem gcb_spec (now : DateTime) (pid : String) (s : PState) :
    ∃ p s1, getCashBalance now pid s = (.ok p.cash_balance, s1) ∧
      s1.portfolio = some p ∧ s1.holdings = s.holdings ∧
      s1.transactions = s.transactions ∧
      (CashNonneg s → 0 ≤ p.cash_balance) := by
  obtain ⟨p, s1, heq, h1, h2, h3, h4⟩ := gocp_spec now pid s
  exact ⟨p, s1, by rw [getCashBalance, heq], h1, h2, h3, h4⟩

theorem ucb_preserves (a : ℚ) (op : String) (now : DateTime) (pid : String)
    (s : PState) (hc : CashNonneg s) :
    CashNonneg (updateCashBalance a op now pid s).2 := by
  unfold updateCashBalance
  split
  · exact hc
  · split
    · exact hc
    · rename_i hneg hop
      obtain ⟨p, s1, heq, hp1, hh1, ht1, hpc⟩ := gocp_spec now pid s
      rw [heq]
      dsimp only
      have hc1 : CashNonneg s1 := by
        unfold CashNonneg
        rw [show cashOf s1 = p.cash_balance by unfold cashOf; rw [hp1]]
        exact hpc hc
      by_cases hadd : op = "add"
      · rw [if_pos hadd]
        unfold Portfolio.add_cash
        by_cases hle : a ≤ 0
        · rw [if_pos hle]
          exact hc1
        · rw [if_neg hle]
          dsimp only
          rw [portfolioUpdate, hp1]
          dsimp only
          unfold CashNonneg cashOf
          dsimp only
          have := hpc hc
          linarith [not_le.mp hle]
      · rw [if_neg hadd]
        by_cases hgt : a > p.cash_balance
        · rw [if_pos hgt]
          exact hc1
        · rw [if_neg hgt]
          unfold Portfolio.withdraw_cash
          by_cases hle0 : a ≤ 0
          · rw [if_pos hle0]
            exact hc1
          · rw [if_neg hle0, if_neg hgt]
            dsimp only
            rw [portfolioUpdate, hp1]
            dsimp only
            unfold CashNonneg cashOf
            dsimp only
            have := hpc hc
            linarith [not_lt.mp hgt]

theorem addHolding_preserves (hid tid : String) (now : DateTime)
    (ticker : String) (quantity price : ℚ) (pd notes : Option String)
    (pid : String) (s : PState) (hc : CashNonneg s) :
    CashNonneg (addHolding hid tid now ticker quantity price pd notes pid s).2 := by
  obtain ⟨p, s1, hgcb, hp1, hh1, ht1, hpc⟩ := gcb_spec now pid s
  have hc1 : CashNonneg s1 := by
    unfold CashNonneg
    rw [show cashOf s1 = p.cash_balance by unfold cashOf; rw [hp1]]
    exact hpc hc
  unfold addHolding
  rw [hgcb]
  split
  · exact hc
  rename_i tk hvt
  split
  · exact hc
  rename_i q hvq
  split
  · exact hc
  rename_i pr hvp
  split
  · exact hc
  split
  · exact hc
  dsimp only
  split
  · exact hc1
  split
  · exact hc1
  rename_i holding hpyd
  split
  · exact hc1
  rename_i s2 hcr
  have hc2 : CashNonneg s2 := by
    unfold CashNonneg
    rw [cashOf_congr (holdingsCreate_portfolio hcr)]
    exact hc1
  split
  · exact hc2
  rename_i txn htxn
  split
  · exact hc2
  rename_i s3 htcr
  have hc3 : CashNonneg s3 := by
    unfold CashNonneg
    rw [cashOf_congr (transactionsCreate_portfolio htcr)]
    exact hc2
  split
  · rename_i e s4 hu
    have := ucb_preserves (q * pr) "subtract" now pid s3 hc3
    rw [hu] at this
    exact this
  · rename_i nb s4 hu
    have := ucb_preserves (q * pr) "subtract" now pid s3 hc3
    rw [hu] at this
    exact this

theorem removeHolding_preserves (tid : String) (now : DateTime)
    (position_id : String) (quantity : Option ℚ) (pid : String) (s : PState)
    (hc : CashNonneg s) :
    CashNonneg (removeHolding tid now position_id quantity pid s).2 := by
  unfold removeHolding
  split
  · exact hc
  rename_i pidv hv
  split
  · exact hc
  rename_i holding hfind
  have hdel2 : CashNonneg (holdingsDelete pidv s).2 := by
    unfold CashNonneg
    rw [cashOf_congr (holdingsDelete_portfolio pidv s)]
    exact hc
  have tail : ∀ (qts : ℚ) (isfull : Bool) (s2 : PState), CashNonneg s2 →
      CashNonneg ((match Transaction.pydantic tid pid TransactionType.sell
          (some holding.ticker) (some qts) holding.purchase_price
          (qts * holding.purchase_price) now (some "Sale of shares") now with
        | Except.error e => ((Except.error e : Except PError RemoveHoldingResult), s2)
        | Except.ok txn =>
          match transactionsCreate txn s2 with
          | Except.error e => (Except.error e, s2)
          | Except.ok s3 =>
            match updateCashBalance (qts * holding.purchase_price) "add" now pid s3 with
            | (Except.error e, s4) => (Except.error e, s4)
            | (Except.ok nb, s4) =>
              (Except.ok ⟨txn, qts, qts * holding.purchase_price, nb, isfull,
                if isfull = true then 0 else holding.quantity - qts⟩, s4))).2 := by
    intro qts isfull s2 hc2
    split
    · exact hc2
    rename_i txn htxn
    split
    · exact hc2
    rename_i s3 htcr
    have hc3 : CashNonneg s3 := by
      unfold CashNonneg
      rw [cashOf_congr (transactionsCreate_portfolio htcr)]
      exact hc2
    split
    · rename_i e s4 hu
      have := ucb_preserves (qts * holding.purchase_price) "add" now pid s3 hc3
      rw [hu] at this
      exact this
    · rename_i nb s4 hu
      have := ucb_preserves (qts * holding.purchase_price) "add" now pid s3 hc3
      rw [hu] at this
      exact this
  split
  · -- quantity omitted: full sale through delete
    dsimp only
    rw [if_pos rfl]
    exact tail holding.quantity true (holdingsDelete pidv s).2 hdel2
  · -- explicit quantity
    rename_i q0 hq0arm
    split
    · exact hc
    rename_i q hvq
    split
    · exact hc
    rename_i hle
    dsimp only
    generalize hb : decide (q = holding.quantity) = b
    cases b with
    | true =>
      rw [if_pos rfl]
      exact tail q true (holdingsDelete pidv s).2 hdel2
    | false =>
      rw [if_neg (show ¬ ((false : Bool) = true) by simp)]
      split
      · exact hc
      · rename_i s2 hupd
        split at hupd
        · exact absurd hupd (by simp)
        · rename_i fst s2' hinner
          simp only [Except.ok.injEq] at hupd
          subst hupd
          have hc2 : CashNonneg s2' := by
            unfold CashNonneg
            rw [cashOf_congr (holdingsUpdate_portfolio hinner)]
            exact hc
          exact tail q false s2' hc2

set_option maxHeartbeats 1000000 in
theorem updatePosition_preserves (now : DateTime) (position_id : String)
    (notes : Option String) (price : Option ℚ) (pid : String) (s : PState)
    (hc : CashNonneg s) :
    CashNonneg (updatePosition now position_id notes price pid s).2 := by
  cases hv : validate_position_id position_id with
  | error e =>
    unfold updatePosition
    rw [hv]
    exact hc
  | ok pidv =>
    cases hfind : findHolding pidv s with
    | none =>
      unfold updatePosition
      rw [hv]
      dsimp only
      rw [hfind]
      exact hc
    | some holding =>
      have tail : ∀ (h2 : Holding) (updated : Bool),
          CashNonneg ((if updated = true then
              match holdingsUpdate pidv ⟨h2.id, h2.portfolio_id, h2.ticker,
                  h2.quantity, h2.purchase_price, h2.purchase_date, h2.notes,
                  h2.created_at, now⟩ now s with
              | Except.error e => ((Except.error e : Except PError Holding), s)
              | Except.ok (h3, s2) => (Except.ok h3, s2)
            else (Except.error (PError.validationError "No fields to update"),
              s))).2 := by
        intro h2 updated
        cases updated with
        | false =>
          rw [if_neg (show ¬ ((false : Bool) = true) by simp)]
          exact hc
        | true =>
          rw [if_pos rfl]
          split
          · exact hc
          · rename_i h3 s2 hupd
            unfold CashNonneg
            rw [cashOf_congr (holdingsUpdate_portfolio hupd)]
            exact hc
      unfold updatePosition
      rw [hv]
      dsimp only
      rw [hfind]
      dsimp only
      cases notes with
      | none =>
        dsimp only
        cases price with
        | none =>
          dsimp only
          exact tail holding false
        | some pr0 =>
          dsimp only
          cases hpr : validate_price pr0 with
          | error e =>
            exact hc
          | ok pr =>
            dsimp only
            exact tail ⟨holding.id, holding.portfolio_id, holding.ticker,
              holding.quantity, pr, holding.purchase_date, holding.notes,
              holding.created_at, holding.updated_at⟩ true
      | some n =>
        dsimp only
        cases hnv : validate_notes (some n) with
        | error e =>
          exact hc
        | ok nv =>
          dsimp only
          cases price with
          | none =>
            dsimp only
            exact tail ⟨holding.id, holding.portfolio_id, holding.ticker,
              holding.quantity, holding.purchase_price, holding.purchase_date,
              nv, holding.created_at, holding.updated_at⟩ true
          | some pr0 =>
            dsimp only
            cases hpr : validate_price pr0 with
            | error e =>
              exact hc
            | ok pr =>
              dsimp only
              exact tail ⟨holding.id, holding.portfolio_id, holding.ticker,
                holding.quantity, pr, holding.purchase_date, nv,
                holding.created_at, holding.updated_at⟩ true

theorem gocp_preserves (c : Option Portfolio) (now : DateTime) (pid : String)
    (s : PState) (hc : CashNonneg s) (hcc : ∀ pc ∈ c, 0 ≤ pc.cash_balance) :
    CashNonneg (getOrCreatePortfolio c now pid s).2 := by
  unfold getOrCreatePortfolio
  cases hsp : s.portfolio with
  | some p =>
    exact hc
  | none =>
    cases c with
    | none =>
      dsimp only
      rw [hsp]
      unfold CashNonneg cashOf
      norm_num
    | some pc =>
      dsimp only
      unfold CashNonneg cashOf
      dsimp only
      exact hcc pc rfl

/-- One caller-visible ledger operation (the sequential, race-free runs). -/
inductive LedgerOp where
  | updateCash (amount : ℚ) (operation : String)
  | buy (hid tid ticker : String) (quantity price : ℚ)
      (purchase_date notes : Option String)
  | sell (tid position_id : String) (quantity : Option ℚ)
  | adjust (position_id : String) (notes : Option String) (price : Option ℚ)
  | ensurePortfolio

/-- The state transition an operation induces on the store (its returned
value or error is irrelevant to the invariant). -/
def stepOp (now : DateTime) (pid : String) (s : PState) : LedgerOp → PState
  | .updateCash a op => (updateCashBalance a op now pid s).2
  | .buy hid tid tk q pr pd n => (addHolding hid tid now tk q pr pd n pid s).2
  | .sell tid posId q => (removeHolding tid now posId q pid s).2
  | .adjust posId n pr => (updatePosition now posId n pr pid s).2
  | .ensurePortfolio => (getOrCreatePortfolio none now pid s).2

/-- C4: cash_balance ≥ 0 is preserved by every single ledger operation, and
hence by every sequence of ledger operations: no reachable sequential run
drives the stored cash balance negative. -/
theorem C4_theorem :
    (∀ (now : DateTime) (pid : String) (op : LedgerOp) (s : PState),
      CashNonneg s → CashNonneg (stepOp now pid s op)) ∧
    (∀ (now : DateTime) (pid : String) (ops : List LedgerOp) (s : PState),
      CashNonneg s → CashNonneg (ops.foldl (stepOp now pid) s)) := by
  have hstep : ∀ (now : DateTime) (pid : String) (op : LedgerOp) (s : PState),
      CashNonneg s → CashNonneg (stepOp now pid s op) := by
    intro now pid op s hc
    cases op with
    | updateCash a o => exact ucb_preserves a o now pid s hc
    | buy hid tid tk q pr pd n =>
      exact addHolding_preserves hid tid now tk q pr pd n pid s hc
    | sell tid posId q =>
      exact removeHolding_preserves tid now posId q pid s hc
    | adjust posId n pr =>
      exact updatePosition_preserves now posId n pr pid s hc
    | ensurePortfolio =>
      exact gocp_preserves none now pid s hc (by intro pc hpc; cases hpc)
  refine ⟨hstep, fun now pid ops => ?_⟩
  induction ops with
  | nil => intro s hc; exact hc
  | cons op rest ih =>
    intro s hc
    exact ih (stepOp now pid s op) (hstep now pid op s hc)

theorem C4_witness :
    CashNonneg exState ∧
    CashNonneg (([LedgerOp.updateCash 500 "add",
        LedgerOp.buy "h9" "t9" "aapl" 10 150 none none,
        LedgerOp.sell "t10" "h9" (some 4),
        LedgerOp.adjust "h9" none (some 120),
        LedgerOp.ensurePortfolio] : List LedgerOp).foldl
      (stepOp exDate "default") exState) :=
  ⟨by decide,
    C4_theorem.2 exDate "default"
      [LedgerOp.updateCash 500 "add",
        LedgerOp.buy "h9" "t9" "aapl" 10 150 none none,
        LedgerOp.sell "t10" "h9" (some 4),
        LedgerOp.adjust "h9" none (some 120),
        LedgerOp.ensurePortfolio] exState (by decide)⟩

/-! ### Claim C7 -/

theorem txDateDesc_trans : ∀ a b c : Transaction,
    txDateDesc a b → txDateDesc b c → txDateDesc a c := by
  intro a b c h1 h2
  unfold txDateDesc DateTime.le at h1 h2 ⊢
  simp only [decide_eq_true_eq] at h1 h2 ⊢
  omega

theorem txDateDesc_total : ∀ a b : Transaction,
    txDateDesc a b || txDateDesc b a := by
  intro a b
  unfold txDateDesc DateTime.le
  simp only [Bool.or_eq_true, decide_eq_true_eq]
  omega

/-- Strictly-descending-by-date check (adjacent dates strictly decrease). -/
def txStrictDescB : List Transaction → Bool
  | a :: b :: rest => decide (b.date.key < a.date.key) && txStrictDescB (b :: rest)
  | _ => true

/-- `get_transaction_history` with no filters: all stored transactions,
sorted by the descending-date comparator, truncated to the clamped limit. -/
theorem gth_nofilter (limit : Int) (now : DateTime) (pid : String) (s : PState) :
    getTransactionHistory none none none none limit now pid s =
      (.ok ⟨(s.transactions.mergeSort txDateDesc).take
          (min (max 1 limit) 200).toNat,
        ((s.transactions.mergeSort txDateDesc).take
          (min (max 1 limit) 200).toNat).length⟩, s) := by
  rfl

def exTxn1 : Transaction :=
  ⟨"ta", "default", .buy, some "AAPL", some 1, 10, -10, exDate, none, exDate⟩

def exTxn2 : Transaction :=
  ⟨"tb", "default", .sell, some "AAPL", some 1, 10, 10, exDate, none, exDate⟩

/-- A store holding two transactions with the same date. -/
def exStateT : PState := ⟨[], [exTxn1, exTxn2], some exPortfolio⟩

/-- C7 fails as stated on ties: with two stored transactions bearing the same
date, `get_transaction_history` returns both (the sort is stable and keeps
them adjacent), so the returned list is not *strictly* descending in date —
it is only non-strictly (non-increasingly) sorted. -/
theorem C7_counterexample :
    (getTransactionHistory none none none none 50 exDate "default"
        exStateT).1 = .ok ⟨[exTxn1, exTxn2], 2⟩ ∧
    txStrictDescB [exTxn1, exTxn2] = false := by
  constructor
  · rw [gth_nofilter]
    simp only [exStateT]
    rw [show ([exTxn1, exTxn2] : List Transaction).mergeSort txDateDesc
        = [exTxn1, exTxn2] by
      simp [List.mergeSort, List.merge, txDateDesc, DateTime.le]
      decide]
    rfl
  · decide

/-- C7 (amended): whenever `get_transaction_history` returns a result, the
returned transaction list has at most `min(max(1,limit),200)` elements —
which equals `min(limit,200)` whenever `limit ≥ 1` — and is sorted by date
in non-increasing (descending, possibly with ties) order. -/
theorem C7_amended (ticker start_date end_date transaction_type : Option String)
    (limit : Int) (now : DateTime) (pid : String) (s : PState)
    (r : TxHistoryResult)
    (h : (getTransactionHistory ticker start_date end_date transaction_type
      limit now pid s).1 = .ok r) :
    r.transactions.length ≤ (min (max 1 limit) 200).toNat ∧
    (1 ≤ limit → r.transactions.length ≤ (min limit 200).toNat) ∧
    List.Pairwise (fun a b => txDateDesc a b = true) r.transactions := by
  unfold getTransactionHistory at h
  iterate 24 (all_goals (try (first | split at h | dsimp only at h)))
  all_goals simp only [Except.ok.injEq, reduceCtorEq] at h
  all_goals rw [← h]
  all_goals refine ⟨?_, ?_, ?_⟩
  all_goals try (intros; dsimp only; simp only [List.length_take]; omega)
  all_goals dsimp only
  all_goals exact (List.sorted_mergeSort
    (fun a b c => txDateDesc_trans a b c)
    (fun a b => txDateDesc_total a b) _).sublist (List.take_sublist _ _)

theorem C7_witness :
    (getTransactionHistory none none none none 50 exDate "default"
        exStateT).1 = .ok ⟨[exTxn1, exTxn2], 2⟩ ∧
    ([exTxn1, exTxn2] : List Transaction).length ≤
      (min (max 1 (50 : Int)) 200).toNat ∧
    List.Pairwise (fun a b => txDateDesc a b = true) [exTxn1, exTxn2] := by
  have heval : (getTransactionHistory none none none none 50 exDate "default"
      exStateT).1 = .ok ⟨[exTxn1, exTxn2], 2⟩ := by
    rw [gth_nofilter]
    simp only [exStateT]
    rw [show ([exTxn1, exTxn2] : List Transaction).mergeSort txDateDesc
        = [exTxn1, exTxn2] by
      simp [List.mergeSort, List.merge, txDateDesc, DateTime.le]
      decide]
    rfl
  have key := C7_amended none none none none 50 exDate "default" exStateT
    ⟨[exTxn1, exTxn2], 2⟩ heval
  exact ⟨heval, key.1, key.2.2⟩
